import Mathlib

/-!
Shallow embedding of `scripts/extract_bbmodel_1214.py`, the Blockbench
(`.bbmodel`) to Minecraft 1.21.4+ model converter.

Modelling conventions:
* Parsed JSON values are the inductive `JValue`; Python dicts are ordered
  association lists with unique keys (as produced by `json.loads`).
* Python floats are modelled as rationals (`ℚ`).  Every numeric value touched
  by the claims is exactly representable, so the rational model agrees with
  the binary floats of the source on all inputs used here.
* `fail(msg)` (print + `SystemExit(1)`) is modelled as `Except.error msg`
  carrying the message passed to `fail`.
* The filesystem seen by the converter is a parameter
  `fs : String → Option (List Nat)` mapping a path to its bytes when the
  path names an existing regular file.
* Paths are POSIX strings; `Path.is_absolute` is "starts with /", and
  `parent / p` is string concatenation with a slash.
-/

inductive JValue where
  | jnull : JValue
  | jbool (b : Bool) : JValue
  | jint (n : Int) : JValue
  | jfloat (q : ℚ) : JValue
  | jstr (s : String) : JValue
  | jarr (xs : List JValue) : JValue
  | jobj (fields : List (String × JValue)) : JValue

/-- Python `v is True` (identity with the `True` singleton). -/
def isJTrue : JValue → Bool
  | .jbool true => true
  | _ => false

/-- Python `v is False`. -/
def isJFalse : JValue → Bool
  | .jbool false => true
  | _ => false

/-- Python `d.get(k)` on a parsed JSON dict: the value if present, else
`None` (JSON `null` and Python `None` are the same object, `jnull`). -/
def pyGet (fields : List (String × JValue)) (k : String) : JValue :=
  (fields.lookup k).getD .jnull

/-- Python `d.get(k, dflt)`. -/
def pyGetD (fields : List (String × JValue)) (k : String) (dflt : JValue) : JValue :=
  (fields.lookup k).getD dflt

/-- Python truthiness of a parsed JSON value. -/
def pyTruthy : JValue → Bool
  | .jnull => false
  | .jbool b => b
  | .jint n => n != 0
  | .jfloat q => q != 0
  | .jstr s => s != ""
  | .jarr xs => !xs.isEmpty
  | .jobj fields => !fields.isEmpty

/-- The decimal digit character for `n < 10` (Python `str` digit). -/
def digitCh (n : Nat) : Char := Char.ofNat (48 + n)

/-- Decimal digits of `n`, most significant first, with explicit fuel so the
recursion is structural (any `fuel > n` yields the digits of `n`). -/
def natReprAux : Nat → Nat → List Char
  | 0, _ => []
  | fuel + 1, n =>
    if n < 10 then [digitCh n]
    else natReprAux fuel (n / 10) ++ [digitCh (n % 10)]

/-- Python `str(n)` for a non-negative integer. -/
def pyNatRepr (n : Nat) : String := ⟨natReprAux (n + 1) n⟩

/-- Python `str(n)` for an integer. -/
def pyIntRepr (n : Int) : String :=
  if n < 0 then "-" ++ pyNatRepr n.natAbs else pyNatRepr n.natAbs

/-- Python `repr`/`str` of a float, restricted to the values reachable here
(floats with an exact short decimal form; the claims only ever format
integral floats, rendered `n.0` exactly as Python does). -/
def pyFloatRepr (q : ℚ) : String :=
  if q.den = 1 then pyIntRepr q.num ++ ".0"
  else pyIntRepr q.num ++ "/" ++ pyNatRepr q.den

/-- Python `str(v)` for a parsed JSON value (containers rendered
best-effort; no claim formats a container). -/
def pyStr : JValue → String
  | .jnull => "None"
  | .jbool b => if b then "True" else "False"
  | .jint n => pyIntRepr n
  | .jfloat q => pyFloatRepr q
  | .jstr s => s
  | .jarr _ => "<list>"
  | .jobj _ => "<dict>"

/-- Python `str(v or dflt)` where `dflt` is a string (used for the
`name or f"..."` idiom). -/
def pyStrOr (v : JValue) (dflt : String) : String :=
  if pyTruthy v then pyStr v else dflt

/-- ASCII whitespace stripped by Python `int()` / `float()`. -/
def isPySpace (c : Char) : Bool :=
  c = ' ' || c = '\t' || c = '\n' || c = '\x0d' || c = '\x0b' || c = '\x0c'

/-- Digit run with optional single underscores between digits, as accepted
inside Python `int()` literals; returns the value. -/
def parseDigitsU : List Char → Option Nat
  | [] => none
  | c :: rest =>
    if c.isDigit then go (c.toNat - 48) rest else none
where
  go (acc : Nat) : List Char → Option Nat
    | [] => some acc
    | c :: rest =>
      if c.isDigit then go (acc * 10 + (c.toNat - 48)) rest
      else if c = '_' then
        match rest with
        | d :: rest2 => if d.isDigit then go (acc * 10 + (d.toNat - 48)) rest2 else none
        | [] => none
      else none

/-- Python `int(s)` on a string: optional surrounding ASCII whitespace, an
optional sign, then decimal digits (underscores allowed between digits).
`none` models the `ValueError`.  (Non-ASCII digits are out of scope.) -/
def pyIntOfString (s : String) : Option Int :=
  let cs := (s.data.dropWhile isPySpace).reverse.dropWhile isPySpace |>.reverse
  match cs with
  | '+' :: rest => (parseDigitsU rest).map Int.ofNat
  | '-' :: rest => (parseDigitsU rest).map (fun n => -(n : Int))
  | rest => (parseDigitsU rest).map Int.ofNat

/-- Digit run (underscores allowed) together with the number of digits, for
fractional parts of float literals. -/
def parseDigitsC : List Char → Option (Nat × Nat)
  | [] => none
  | c :: rest =>
    if c.isDigit then go (c.toNat - 48) 1 rest else none
where
  go (acc count : Nat) : List Char → Option (Nat × Nat)
    | [] => some (acc, count)
    | c :: rest =>
      if c.isDigit then go (acc * 10 + (c.toNat - 48)) (count + 1) rest
      else if c = '_' then
        match rest with
        | d :: rest2 =>
          if d.isDigit then go (acc * 10 + (d.toNat - 48)) (count + 2 - 1) rest2 else none
        | [] => none
      else none

/-- Python `float(s)` on a string, restricted to plain decimal literals
`[sign] digits [. digits]` / `[sign] . digits` (exponents, `inf` and `nan`
never occur in the inputs considered).  `none` models the `ValueError`. -/
def pyFloatOfString (s : String) : Option ℚ :=
  let cs := (s.data.dropWhile isPySpace).reverse.dropWhile isPySpace |>.reverse
  match cs with
  | '+' :: rest => core rest
  | '-' :: rest => (core rest).map Neg.neg
  | rest => core rest
where
  core (cs : List Char) : Option ℚ :=
    let intPart := cs.takeWhile (fun c => c ≠ '.')
    let rest := cs.dropWhile (fun c => c ≠ '.')
    match rest with
    | [] => (parseDigitsU intPart).map (fun n => (n : ℚ))
    | _ :: fracChars =>
      match intPart, fracChars with
      | [], [] => none
      | [], _ =>
        (parseDigitsC fracChars).map (fun p => (p.1 : ℚ) / (10 : ℚ) ^ p.2)
      | _, [] => (parseDigitsU intPart).map (fun n => (n : ℚ))
      | _, _ => do
        let n ← parseDigitsU intPart
        let p ← parseDigitsC fracChars
        pure ((n : ℚ) + (p.1 : ℚ) / (10 : ℚ) ^ p.2)

/-- Python `float(v)` applied to a parsed JSON value (`bool` is an `int`
subclass in Python, so `float(True) = 1.0`); `none` models the
`TypeError`/`ValueError`. -/
def pyFloat : JValue → Option ℚ
  | .jint n => some (n : ℚ)
  | .jfloat q => some q
  | .jbool b => some (if b then 1 else 0)
  | .jstr s => pyFloatOfString s
  | _ => none

/-- `read_positive_int` from the source: best-effort coercion of a loosely
typed field to a positive int, falling back to `default` and never failing. -/
def read_positive_int (value : JValue) (default : Int) : Int :=
  match value with
  | .jbool _ => default
  | .jint n => if n > 0 then n else default
  | .jfloat q =>
    if q.den = 1 then (if q.num > 0 then q.num else default) else default
  | .jstr s =>
    match pyIntOfString s with
    | some parsed => if parsed > 0 then parsed else default
    | none => default
  | _ => default

/-- A character kept verbatim by `PACK_NAME_PATTERN = [^a-z0-9_.]`. -/
def packNameKeep (c : Char) : Bool :=
  ('a' ≤ c && c ≤ 'z') || ('0' ≤ c && c ≤ '9') || c = '_' || c = '.'

/-- `to_pack_name` from the source: lower-case, then replace every character
outside `[a-z0-9_.]` with an underscore (ASCII lowering; the inputs here are
ASCII). -/
def to_pack_name (raw : String) : String :=
  ⟨raw.data.map (fun c =>
    let l := c.toLower
    if packNameKeep l then l else '_')⟩

/-- Python `pathlib.Path(s).name`: the part after the last `/`. -/
def pathName (s : String) : String :=
  ⟨(s.data.reverse.takeWhile (fun c => c ≠ '/')).reverse⟩

/-- Python `pathlib.Path(s).stem`: drop the last suffix of the final
component; a dot at position 0 or at the very end does not start a suffix. -/
def pathStem (s : String) : String :=
  let name := (pathName s).data
  let tail := name.reverse.takeWhile (fun c => c ≠ '.')
  -- `tail` is what follows the last dot (reversed); a suffix exists only if
  -- a dot occurs strictly inside the name.
  if tail.length = name.length then ⟨name⟩        -- no dot at all
  else if tail.length = 0 then ⟨name⟩             -- name ends with '.'
  else if tail.length + 1 = name.length then ⟨name⟩  -- the only dot is first
  else ⟨(name.reverse.drop (tail.length + 1)).reverse⟩

/-- Substring test helpers (needle occurs contiguously in the haystack). -/
def listStarts : List Char → List Char → Bool
  | [], _ => true
  | _ :: _, [] => false
  | n :: ns, h :: hs => n = h && listStarts ns hs

def listSub (needle : List Char) : List Char → Bool
  | [] => needle.isEmpty
  | c :: rest => listStarts needle (c :: rest) || listSub needle rest

/-- `needle` occurs as a contiguous substring of `hay`. -/
def strHas (hay needle : String) : Bool := listSub needle.data hay.data

/-- Python `s.startswith(pre)`. -/
def strStarts (s pre : String) : Bool := listStarts pre.data s.data

/-! ### Base64 decoding, `base64.b64decode(payload, validate=False)`

CPython's non-strict `binascii.a2b_base64`: characters outside the base64
alphabet are skipped; `=` counts as padding only when the current quad
already holds at least two data characters, every data character resets the
pad count to zero, and decoding stops successfully once a quad is completed
by padding; a leftover quad position of 1, 2 or 3 at the end of input is an
error.  `b64decode` on a `str` first encodes it as ASCII, so any non-ASCII
character is a `ValueError`. -/

/-- Value of a base64 alphabet character, `none` for everything else. -/
def b64Val (c : Char) : Option Nat :=
  if 'A' ≤ c && c ≤ 'Z' then some (c.toNat - 65)
  else if 'a' ≤ c && c ≤ 'z' then some (c.toNat - 97 + 26)
  else if '0' ≤ c && c ≤ '9' then some (c.toNat - 48 + 52)
  else if c = '+' then some 62
  else if c = '/' then some 63
  else none

/-- One decoding pass of non-strict `a2b_base64`; state is the quad position,
the carried bits, the pad count and the output accumulated so far. -/
def b64Aux : List Char → Nat → Nat → Nat → List Nat → Option (List Nat)
  | [], quadPos, _, _, out =>
    if quadPos = 0 then some out.reverse else none
  | c :: rest, quadPos, leftchar, pads, out =>
    if c = '=' then
      if quadPos ≥ 2 then
        if quadPos + (pads + 1) ≥ 4 then some out.reverse
        else b64Aux rest quadPos leftchar (pads + 1) out
      else b64Aux rest quadPos leftchar pads out
    else
      match b64Val c with
      | none => b64Aux rest quadPos leftchar pads out
      | some v =>
        -- a data character resets the pad count (binascii does `pads = 0`)
        match quadPos with
        | 0 => b64Aux rest 1 v 0 out
        | 1 => b64Aux rest 2 (v % 16) 0 ((leftchar * 4 + v / 16) :: out)
        | 2 => b64Aux rest 3 (v % 4) 0 ((leftchar * 16 + v / 4) :: out)
        | _ => b64Aux rest 0 0 0 ((leftchar * 64 + v) :: out)

/-- `base64.b64decode(s, validate=False)` on a `str`; `none` models both the
`binascii.Error` of the decoder and the `ValueError` of the implicit ASCII
encoding. -/
def b64decode (s : String) : Option (List Nat) :=
  if s.data.all (fun c => c.toNat < 128) then b64Aux s.data 0 0 0 [] else none

/-- Index of the first `,` in `s` (Python `s.find(",")`, `none` for `-1`). -/
def findComma (s : String) : Option Nat :=
  go s.data 0
where
  go : List Char → Nat → Option Nat
    | [], _ => none
    | c :: rest, i => if c = ',' then some i else go rest (i + 1)

/-- Python `Path(s).is_absolute()` on POSIX. -/
def isAbsolutePath (s : String) : Bool := strStarts s "/"

/-- `bbmodel_path.parent / s`. -/
def joinPath (parent s : String) : String := parent ++ "/" ++ s

/-- `decode_texture_source` from the source: obtain a texture's raw bytes
from an inline data URI or an external file.  `fs` maps an existing regular
file's path to its bytes (`Path.is_file` / `Path.read_bytes`). -/
def decode_texture_source (texture : List (String × JValue)) (parentDir : String)
    (fs : String → Option (List Nat)) (idx : Nat) : Except String (List Nat) :=
  let source := pyGet texture "source"
  match source with
  | .jstr s =>
    if s ≠ "" then
      if strStarts s "data:" then
        match findComma s with
        | none => .error ("Texture " ++ pyNatRepr idx ++ " has malformed data URL.")
        | some comma =>
          let payload : String := ⟨s.data.drop (comma + 1)⟩
          match b64decode payload with
          | some bytes => .ok bytes
          | none => .error ("Texture " ++ pyNatRepr idx ++ " has invalid base64 payload.")
      else
        let external := if isAbsolutePath s then s else joinPath parentDir s
        match fs external with
        | some bytes => .ok bytes
        | none =>
          .error ("Texture " ++ pyNatRepr idx ++ " external source missing: " ++ external)
    else fallbackPath texture parentDir fs idx
  | _ => fallbackPath texture parentDir fs idx
where
  /-- The `texture.get("path")` fallback branch. -/
  fallbackPath (texture : List (String × JValue)) (parentDir : String)
      (fs : String → Option (List Nat)) (idx : Nat) : Except String (List Nat) :=
    match pyGet texture "path" with
    | .jstr s =>
      if s ≠ "" then
        let external := if isAbsolutePath s then s else joinPath parentDir s
        match fs external with
        | some bytes => .ok bytes
        | none =>
          .error ("Texture " ++ pyNatRepr idx ++ " external path missing: " ++ external)
      else .error ("Texture " ++ pyNatRepr idx ++ " has neither embedded source nor readable external path.")
    | _ => .error ("Texture " ++ pyNatRepr idx ++ " has neither embedded source nor readable external path.")

/-! ### Texture plans -/

/-- The animation payload written to a `.mcmeta` sidecar. -/
structure McMeta where
  interpolate : Bool
  frametime : Int
deriving Repr, DecidableEq

/-- `TexturePlan` from the source. -/
structure TexturePlan where
  index : Nat
  file_stem : String
  rel_namespace_path : String
  png_bytes : List Nat
  mcmeta_json : Option McMeta
deriving Repr, DecidableEq

/-- The animation classification of `build_texture_plans` (source lines
214-219): with positive UV dimensions compare the height and width ratios
strictly, otherwise fall back to comparing raw pixel dimensions. -/
def isAnimatedTexture (width height uv_width uv_height : Int) : Bool :=
  if uv_width > 0 && uv_height > 0 then
    let width_ratio : ℚ := if width > 0 then (width : ℚ) / (uv_width : ℚ) else 0
    let height_ratio : ℚ := if height > 0 then (height : ℚ) / (uv_height : ℚ) else 0
    height_ratio > width_ratio
  else
    width > 0 && height > width

/-- The `while unique_stem in used_names` search: try `stem`-independent
candidates `stem_k`, `stem_{k+1}`, …; `fuel` bounds the search (any fuel
exceeding the number of used names suffices, see `fresh_stem_spec`). -/
def fresh_stem (used : List String) (stem : String) : Nat → Nat → String
  | 0, k => stem ++ "_" ++ pyNatRepr k
  | fuel + 1, k =>
    let cand := stem ++ "_" ++ pyNatRepr k
    if cand ∈ used then fresh_stem used stem fuel (k + 1) else cand

/-- Stem de-duplication of `build_texture_plans` (source lines 199-203):
keep the stem if unused, else append `_2`, `_3`, … until unique. -/
def dedup_stem (used : List String) (stem : String) : String :=
  if stem ∈ used then fresh_stem used stem (used.length + 1) 2 else stem

/-- The stem derivation of `build_texture_plans` (source lines 191-198),
before de-duplication. -/
def texture_stem (texture : List (String × JValue)) (idx : Nat)
    (model_name : String) (prefix_textures : Bool) : String :=
  let raw_name := pyStrOr (pyGet texture "name") ("texture_" ++ pyNatRepr idx)
  let stem0 := pathStem raw_name
  let stem1 := to_pack_name (if stem0 ≠ "" then stem0 else "texture_" ++ pyNatRepr idx)
  let stem2 := if prefix_textures then to_pack_name (model_name ++ "_" ++ stem1) else stem1
  if stem2 = "" then "texture_" ++ pyNatRepr idx else stem2

/-- One iteration of the `build_texture_plans` loop body for a texture entry
already known to be an object, given the de-duplicated stem and decoded
bytes. -/
def make_texture_plan (texture : List (String × JValue)) (idx : Nat)
    (namespace_ asset variant : String) (unique_stem : String)
    (data : List Nat) : TexturePlan :=
  let width := read_positive_int (pyGet texture "width") 0
  let height := read_positive_int (pyGet texture "height") 0
  let uv_width := read_positive_int (pyGet texture "uv_width") 0
  let uv_height := read_positive_int (pyGet texture "uv_height") 0
  let frame_time := read_positive_int (pyGet texture "frame_time") 1
  let frame_interpolate := pyTruthy (pyGet texture "frame_interpolate")
  let is_animated := isAnimatedTexture width height uv_width uv_height
  { index := idx
    file_stem := unique_stem
    rel_namespace_path :=
      namespace_ ++ ":item/" ++ asset ++ "/" ++ variant ++ "/" ++ unique_stem
    png_bytes := data
    mcmeta_json :=
      if is_animated then
        some { interpolate := frame_interpolate, frametime := frame_time }
      else none }

/-- The loop of `build_texture_plans` over the texture array, threading the
set of used stems. -/
def build_texture_plans_aux (bbmodel_parent : String)
    (fs : String → Option (List Nat)) (namespace_ asset variant model_name : String)
    (prefix_textures : Bool) :
    List JValue → Nat → List String → Except String (List TexturePlan)
  | [], _, _ => .ok []
  | t :: rest, idx, used =>
    match t with
    | .jobj texture =>
      let stem := texture_stem texture idx model_name prefix_textures
      let unique_stem := dedup_stem used stem
      match decode_texture_source texture bbmodel_parent fs idx with
      | .error e => .error e
      | .ok data =>
        match build_texture_plans_aux bbmodel_parent fs namespace_ asset variant
            model_name prefix_textures rest (idx + 1) (unique_stem :: used) with
        | .error e => .error e
        | .ok plans =>
          .ok (make_texture_plan texture idx namespace_ asset variant unique_stem data :: plans)
    | _ => .error ("Texture entry " ++ pyNatRepr idx ++ " is not an object.")

/-- `build_texture_plans` from the source. -/
def build_texture_plans (bbmodel : List (String × JValue)) (bbmodel_parent : String)
    (fs : String → Option (List Nat)) (namespace_ asset variant model_name : String)
    (prefix_textures : Bool) : Except String (List TexturePlan) :=
  match pyGet bbmodel "textures" with
  | .jarr raw_textures =>
    build_texture_plans_aux bbmodel_parent fs namespace_ asset variant model_name
      prefix_textures raw_textures 0 []
  | _ => .error "bbmodel 'textures' field is missing or not an array."

/-! ### Geometry conversion -/

/-- `ensure_list3` from the source: a JSON value must be a 3-element array of
values coercible by `float()`. -/
def ensure_list3 (value : JValue) (label elem_name : String) : Except String (ℚ × ℚ × ℚ) :=
  match value with
  | .jarr [a, b, c] =>
    match pyFloat a, pyFloat b, pyFloat c with
    | some x, some y, some z => .ok (x, y, z)
    | _, _, _ =>
      .error ("Element '" ++ elem_name ++ "' has non-numeric " ++ label ++ ".")
  | _ =>
    .error ("Element '" ++ elem_name ++ "' has invalid " ++ label ++ "; expected 3-number array.")

/-- `ensure_list4` from the source. -/
def ensure_list4 (value : JValue) (label elem_name : String) :
    Except String (ℚ × ℚ × ℚ × ℚ) :=
  match value with
  | .jarr [a, b, c, d] =>
    match pyFloat a, pyFloat b, pyFloat c, pyFloat d with
    | some x, some y, some z, some w => .ok (x, y, z, w)
    | _, _, _, _ =>
      .error ("Element '" ++ elem_name ++ "' has non-numeric " ++ label ++ ".")
  | _ =>
    .error ("Element '" ++ elem_name ++ "' has invalid " ++ label ++ "; expected 4-number array.")

/-- `convert_face_uv` from the source: divide the X coordinates by
`resolution.width / 16` and the Y coordinates by `resolution.height / 16`,
replacing a non-positive scale factor with `1.0`. -/
def convert_face_uv (raw_uv : ℚ × ℚ × ℚ × ℚ)
    (model_resolution_width model_resolution_height : Int) : ℚ × ℚ × ℚ × ℚ :=
  let scale_width0 : ℚ := (model_resolution_width : ℚ) / 16
  let scale_height0 : ℚ := (model_resolution_height : ℚ) / 16
  let scale_width : ℚ := if scale_width0 ≤ 0 then 1 else scale_width0
  let scale_height : ℚ := if scale_height0 ≤ 0 then 1 else scale_height0
  (raw_uv.1 / scale_width, raw_uv.2.1 / scale_height,
   raw_uv.2.2.1 / scale_width, raw_uv.2.2.2 / scale_height)

/-- The Python object returned by `resolve_texture_index`.  Python `bool` is
a subclass of `int`, so `isinstance(raw, int)` accepts `True`/`False` and
the function returns the boolean itself unchanged. -/
inductive TexRef where
  | ofBool (b : Bool) : TexRef
  | ofInt (n : Int) : TexRef
deriving Repr, DecidableEq

/-- The numeric value of a returned texture ref, as used by the
`tex_index not in texture_lookup` dictionary lookup (`True == 1`,
`False == 0`). -/
def TexRef.intVal : TexRef → Int
  | .ofBool b => if b then 1 else 0
  | .ofInt n => n

/-- The string form of a returned texture ref, as interpolated by
`f"#{tex_index}"` (`str(True) = "True"`). -/
def TexRef.strForm : TexRef → String
  | .ofBool b => if b then "True" else "False"
  | .ofInt n => pyIntRepr n

/-- `resolve_texture_index` from the source. -/
def resolve_texture_index (raw : JValue) (elem_name face_name : String) :
    Except String TexRef :=
  match raw with
  | .jbool b => .ok (.ofBool b)    -- isinstance(raw, int) holds for Python bools
  | .jint n => .ok (.ofInt n)
  | .jfloat q =>
    if q.den = 1 then .ok (.ofInt q.num)
    else .error ("Element '" ++ elem_name ++ "' face '" ++ face_name ++ "' has invalid texture ref.")
  | .jstr s =>
    match pyIntOfString s with
    | some n => .ok (.ofInt n)
    | none =>
      .error ("Element '" ++ elem_name ++ "' face '" ++ face_name ++
        "' uses non-numeric texture ref '" ++ s ++ "'.")
  | _ => .error ("Element '" ++ elem_name ++ "' face '" ++ face_name ++ "' has invalid texture ref.")

/-- A converted single-axis rotation. -/
structure Rotation where
  axis : String
  angle : ℚ
  origin : ℚ × ℚ × ℚ
  rescale : Bool     -- whether the optional `"rescale": true` key is present
deriving DecidableEq

/-- The epsilon of the per-axis zero test, `1e-7` (the Python float literal
differs from `10⁻⁷` only below `10⁻²¹`, far outside any angle considered). -/
def rotEps : ℚ := 1 / 10 ^ 7

/-- The non-zero axes of a rotation vector, in axis order (source line 298). -/
def nonZeroAxes (vec : ℚ × ℚ × ℚ) : List (String × ℚ) :=
  ([("x", vec.1), ("y", vec.2.1), ("z", vec.2.2)]).filter (fun av => |av.2| > rotEps)

/-- `convert_rotation` from the source: `none` in the result means the target
element carries no rotation. -/
def convert_rotation (raw_rotation : JValue) (elem : List (String × JValue))
    (elem_name : String) : Except String (Option Rotation) :=
  match raw_rotation with
  | .jnull => .ok none
  | .jobj r =>
    let axis := pyGet r "axis"
    let angle := pyGet r "angle"
    let angleVal : Option ℚ :=
      match angle with   -- isinstance(angle, (int, float)); float(angle)
      | .jint n => some (n : ℚ)
      | .jfloat q => some q
      | .jbool b => some (if b then 1 else 0)
      | _ => none
    match axis, angleVal with
    | .jstr a, some angq =>
      if a = "x" || a = "y" || a = "z" then
        match ensure_list3 (pyGet r "origin") "rotation.origin" elem_name with
        | .error e => .error e
        | .ok o =>
          .ok (some { axis := a, angle := angq, origin := o,
                      rescale := isJTrue (pyGet r "rescale") })
      else .error ("Element '" ++ elem_name ++ "' rotation object is missing axis/angle/origin.")
    | _, _ => .error ("Element '" ++ elem_name ++ "' rotation object is missing axis/angle/origin.")
  | .jarr l =>
    match ensure_list3 (.jarr l) "rotation" elem_name with
    | .error e => .error e
    | .ok vec =>
      match nonZeroAxes vec with
      | [] => .ok none
      | [av] =>
        match ensure_list3 (pyGet elem "origin") "origin" elem_name with
        | .error e => .error e
        | .ok o => .ok (some { axis := av.1, angle := av.2, origin := o, rescale := false })
      | _ =>
        .error ("Element '" ++ elem_name ++ "' has multi-axis rotation [" ++
          pyFloatRepr vec.1 ++ ", " ++ pyFloatRepr vec.2.1 ++ ", " ++ pyFloatRepr vec.2.2 ++
          "]; cannot represent in one vanilla cube rotation.")
  | _ => .error ("Element '" ++ elem_name ++ "' has unsupported rotation format.")

/-- A converted face of a target element. -/
structure TargetFace where
  uv : ℚ × ℚ × ℚ × ℚ
  texture : String
  rotation : Option ℚ          -- present only when non-zero
  tintindex : Option JValue    -- the raw Python value carried through

/-- A converted target element. -/
structure TargetElement where
  from_v : ℚ × ℚ × ℚ
  to_v : ℚ × ℚ × ℚ
  rotation : Option Rotation
  shade_false : Bool               -- whether `"shade": false` is emitted
  light_emission : Option JValue   -- the raw value when isinstance int and positive
  faces : List (String × TargetFace)

/-- The assembled target document. -/
structure TargetModel where
  textures : List (String × String)   -- ordered dict: key, resource reference
  elements : List TargetElement
  gui_light_front : Bool
  display : Option JValue

/-- `VALID_FACES` from the source. -/
def VALID_FACES : List String := ["north", "east", "south", "west", "up", "down"]

/-- Conversion of one declared face object (source lines 369-394). -/
def convert_face (lookup : List Int) (resW resH : Int) (elem_name face_name : String)
    (raw_face : List (String × JValue)) : Except String TargetFace :=
  match resolve_texture_index (pyGet raw_face "texture") elem_name face_name with
  | .error e => .error e
  | .ok tex_index =>
    if tex_index.intVal ∈ lookup then
      match ensure_list4 (pyGet raw_face "uv") "face uv" elem_name with
      | .error e => .error e
      | .ok raw_uv =>
        let face_rotation : Option ℚ :=
          match pyGet raw_face "rotation" with   -- isinstance(_, (int, float)) incl. bool
          | .jint n => if (n : ℚ) ≠ 0 then some (n : ℚ) else none
          | .jfloat q => if q ≠ 0 then some q else none
          | .jbool b => if b then some 1 else none
          | _ => none
        let tint := pyGet raw_face "tint"
        let tintindex := pyGet raw_face "tintindex"
        let isNonNegIntLike : JValue → Bool :=    -- isinstance(v, int) and v >= 0
          fun v => match v with
          | .jint n => decide (n ≥ 0)
          | .jbool _ => true                   -- True == 1 and False == 0, both ≥ 0
          | _ => false
        let tintOut : Option JValue :=
          if isNonNegIntLike tintindex then some tintindex
          else if isNonNegIntLike tint then some tint
          else none
        .ok { uv := convert_face_uv raw_uv resW resH
              texture := "#" ++ tex_index.strForm
              rotation := face_rotation
              tintindex := tintOut }
    else
      .error ("Element '" ++ elem_name ++ "' face '" ++ face_name ++
        "' references missing texture index " ++ tex_index.strForm ++ ".")

/-- The `for face_name in VALID_FACES` loop: skip entries that are not
objects, convert the rest in face order. -/
def collect_faces (lookup : List Int) (resW resH : Int) (elem_name : String)
    (raw_faces : List (String × JValue)) :
    List String → Except String (List (String × TargetFace))
  | [] => .ok []
  | face_name :: rest =>
    match pyGet raw_faces face_name with
    | .jobj raw_face =>
      match convert_face lookup resW resH elem_name face_name raw_face with
      | .error e => .error e
      | .ok tf =>
        match collect_faces lookup resW resH elem_name raw_faces rest with
        | .error e => .error e
        | .ok others => .ok ((face_name, tf) :: others)
    | _ => collect_faces lookup resW resH elem_name raw_faces rest

/-- `isinstance(light_emission, int) and light_emission > 0` (Python bools
are ints: `True > 0`). -/
def positiveIntLike : JValue → Bool
  | .jint n => decide (n > 0)
  | .jbool b => b
  | _ => false

/-- Conversion of one element of the `elements` array (source lines 334-400):
`ok none` means the element is skipped (not visible, or no valid face). -/
def convert_one_element (lookup : List Int) (resW resH : Int) (idx : Nat)
    (e : JValue) : Except String (Option TargetElement) :=
  match e with
  | .jobj elem =>
    if isJFalse (pyGetD elem "visibility" (.jbool true)) then .ok none
    else
      let elem_name := pyStrOr (pyGet elem "name") ("element_" ++ pyNatRepr idx)
      match ensure_list3 (pyGet elem "from") "from" elem_name with
      | .error e => .error e
      | .ok from_v =>
        match ensure_list3 (pyGet elem "to") "to" elem_name with
        | .error e => .error e
        | .ok to_v =>
          match convert_rotation (pyGet elem "rotation") elem elem_name with
          | .error e => .error e
          | .ok rot =>
            let shade_false := isJFalse (pyGet elem "shade")
            let le_raw := pyGet elem "light_emission"
            let light_emission : Option JValue :=
              if positiveIntLike le_raw then some le_raw else none
            match pyGet elem "faces" with
            | .jobj raw_faces =>
              match collect_faces lookup resW resH elem_name raw_faces VALID_FACES with
              | .error e => .error e
              | .ok faces =>
                if faces.isEmpty then .ok none
                else .ok (some { from_v := from_v, to_v := to_v, rotation := rot,
                                 shade_false := shade_false,
                                 light_emission := light_emission, faces := faces })
            | _ => .error ("Element '" ++ elem_name ++ "' is missing valid faces object.")
  | _ => .error ("Element entry " ++ pyNatRepr idx ++ " is not an object.")

/-- The element loop of `build_model_json`. -/
def convert_elements (lookup : List Int) (resW resH : Int) :
    List JValue → Nat → Except String (List TargetElement)
  | [], _ => .ok []
  | e :: rest, idx =>
    match convert_one_element lookup resW resH idx e with
    | .error err => .error err
    | .ok r =>
      match convert_elements lookup resW resH rest (idx + 1) with
      | .error err => .error err
      | .ok rs =>
        match r with
        | none => .ok rs
        | some te => .ok (te :: rs)

/-- The texture table of the target document: one string-keyed entry per
plan plus the synthetic `particle` alias of the first plan. -/
def texture_object (texture_plans : List TexturePlan) : List (String × String) :=
  texture_plans.map (fun p => (pyNatRepr p.index, p.rel_namespace_path)) ++
    (match texture_plans with
     | [] => []
     | p0 :: _ => [("particle", p0.rel_namespace_path)])

/-- `build_model_json` from the source. -/
def build_model_json (bbmodel : List (String × JValue))
    (texture_plans : List TexturePlan)
    (model_resolution_width model_resolution_height : Int) :
    Except String TargetModel :=
  let lookup : List Int := texture_plans.map (fun p => (p.index : Int))
  match pyGet bbmodel "elements" with
  | .jarr elements =>
    match convert_elements lookup model_resolution_width model_resolution_height
        elements 0 with
    | .error e => .error e
    | .ok converted =>
      if converted.isEmpty then
        .error "No visible textured elements were generated from the bbmodel."
      else
        .ok { textures := texture_object texture_plans
              elements := converted
              gui_light_front := isJTrue (pyGet bbmodel "front_gui_light")
              display :=
                match pyGet bbmodel "display" with
                | .jobj d => if d.isEmpty then none else some (.jobj d)
                | _ => none }
  | _ => .error "bbmodel 'elements' field is missing or not an array."

/-! ### Output planning -/

/-- Python `"sep".join(parts)` for `sep = "\n"`. -/
def joinNL : List String → String
  | [] => ""
  | [s] => s
  | s :: rest => s ++ "\n" ++ joinNL rest

/-- `ensure_writable` from the source: `none` means the writes may proceed,
`some msg` is the refusal message handed to `fail`.  The listing shows at
most the first 10 colliding paths, then a `... and N more` count. -/
def ensure_writable (paths : List String) (force : Bool)
    (exists_fn : String → Bool) : Option String :=
  if force then none
  else
    let collisions := paths.filter exists_fn
    if collisions.isEmpty then none
    else
      let preview := joinNL ((collisions.take 10).map (fun p => "- " ++ p))
      let rest :=
        if collisions.length ≤ 10 then ""
        else "\n... and " ++ pyNatRepr (collisions.length - 10) ++ " more"
      some ("Destination files already exist. Use --force to overwrite.\n" ++ preview ++ rest)

/-- The planned output paths of `main` (source lines 468-476): the model
JSON, one PNG per texture plan, one mcmeta sidecar per animated plan. -/
def planned_paths (assets_root namespace_ asset variant model_name : String)
    (texture_plans : List TexturePlan) : List String :=
  let model_dir := assets_root ++ "/" ++ namespace_ ++ "/models/item/" ++ asset ++ "/" ++ variant
  let texture_dir := assets_root ++ "/" ++ namespace_ ++ "/textures/item/" ++ asset ++ "/" ++ variant
  (model_dir ++ "/" ++ model_name ++ ".json") ::
    (texture_plans.map (fun t => texture_dir ++ "/" ++ t.file_stem ++ ".png") ++
     (texture_plans.filter (fun t => t.mcmeta_json.isSome)).map
       (fun t => texture_dir ++ "/" ++ t.file_stem ++ ".png.mcmeta"))

/-- The write-or-refuse tail of `main`: the collision check runs before any
write, and on refusal the error propagates with no write performed; on
success the returned list is exactly the files that get written, in order. -/
def plan_writes (assets_root namespace_ asset variant model_name : String)
    (texture_plans : List TexturePlan) (force : Bool)
    (exists_fn : String → Bool) : Except String (List String) :=
  let paths := planned_paths assets_root namespace_ asset variant model_name texture_plans
  match ensure_writable paths force exists_fn with
  | some msg => .error msg
  | none => .ok paths

/-! ### Spec-side predicates on source elements -/

def isJObj : JValue → Bool
  | .jobj _ => true
  | _ => false

/-- A source element not explicitly marked invisible (`visibility is False`). -/
def source_visible : JValue → Bool
  | .jobj f => !(isJFalse (pyGetD f "visibility" (.jbool true)))
  | _ => false

/-- A source element declaring at least one face entry that is an object. -/
def source_bears_face : JValue → Bool
  | .jobj f =>
    match pyGet f "faces" with
    | .jobj ff => VALID_FACES.any (fun n => isJObj (pyGet ff n))
    | _ => false
  | _ => false

/-- Parse a digit list back to its value (proof device for injectivity). -/
def digitsVal (l : List Char) : Nat :=
  l.foldl (fun a c => a * 10 + (c.toNat - 48)) 0

/-- The resolution reading of `main` (source lines 449-454):
`read_positive_int(bbmodel.get("resolution", {}).get("width"), 16)` and the
same for `height`.  `none` models the `AttributeError` Python raises when a
present `resolution` value is not a dict (no claim reaches that case). -/
def model_resolution_of (bbmodel : List (String × JValue)) : Option (Int × Int) :=
  match pyGetD bbmodel "resolution" (.jobj []) with
  | .jobj r => some (read_positive_int (pyGet r "width") 16,
                     read_positive_int (pyGet r "height") 16)
  | _ => none

/-! ### Concrete documents used as evaluation witnesses -/

/-- An empty filesystem: every texture below is an inline data URI. -/
def noFs : String → Option (List Nat) := fun _ => none

/-- A texture entry with an inline empty payload. -/
def sampleTex (nm : String) : JValue :=
  .jobj [("name", .jstr nm), ("source", .jstr "data:image/png;base64,")]

/-- A face with UV `[0,0,16,16]` on texture index 0. -/
def sampleFace : JValue :=
  .jobj [("uv", .jarr [.jint 0, .jint 0, .jint 16, .jint 16]), ("texture", .jint 0)]

/-- A full cube with one `sampleFace` per direction. -/
def sampleCube : JValue :=
  .jobj [("name", .jstr "cube"),
         ("from", .jarr [.jint 0, .jint 0, .jint 0]),
         ("to", .jarr [.jint 16, .jint 16, .jint 16]),
         ("faces", .jobj (VALID_FACES.map (fun f => (f, sampleFace))))]

/-- The face mapping of `sampleCube`. -/
def sampleFaces : List (String × JValue) := VALID_FACES.map (fun f => (f, sampleFace))

/-- One texture, one cube. -/
def sampleDoc : List (String × JValue) :=
  [("textures", .jarr [sampleTex "tex"]),
   ("elements", .jarr [sampleCube])]

/-- The plan produced for `sampleDoc`'s only texture. -/
def samplePlan : TexturePlan :=
  { index := 0, file_stem := "tex", rel_namespace_path := "ns:item/asset/default/tex",
    png_bytes := [], mcmeta_json := none }

/-- Two textures that both normalize to the stem `tex`. -/
def sampleDoc2 : List (String × JValue) :=
  [("textures", .jarr [sampleTex "tex", sampleTex "tex"]),
   ("elements", .jarr [sampleCube])]

/-- The plans produced for `sampleDoc2`. -/
def samplePlans2 : List TexturePlan :=
  [{ index := 0, file_stem := "tex", rel_namespace_path := "ns:item/asset/default/tex",
     png_bytes := [], mcmeta_json := none },
   { index := 1, file_stem := "tex_2", rel_namespace_path := "ns:item/asset/default/tex_2",
     png_bytes := [], mcmeta_json := none }]

/-- A face whose texture ref is the JSON boolean `true`. -/
def boolFace : JValue :=
  .jobj [("uv", .jarr [.jint 0, .jint 0, .jint 16, .jint 16]), ("texture", .jbool true)]

/-- A cube with a single such face. -/
def boolCube : JValue :=
  .jobj [("name", .jstr "cube"),
         ("from", .jarr [.jint 0, .jint 0, .jint 0]),
         ("to", .jarr [.jint 16, .jint 16, .jint 16]),
         ("faces", .jobj [("north", boolFace)])]

/-- Two textures (indices 0 and 1) and the boolean-ref cube. -/
def boolDoc : List (String × JValue) :=
  [("textures", .jarr [sampleTex "a", sampleTex "b"]),
   ("elements", .jarr [boolCube])]

/-- The plans produced for `boolDoc`. -/
def boolPlans : List TexturePlan :=
  [{ index := 0, file_stem := "a", rel_namespace_path := "ns:item/asset/default/a",
     png_bytes := [], mcmeta_json := none },
   { index := 1, file_stem := "b", rel_namespace_path := "ns:item/asset/default/b",
     png_bytes := [], mcmeta_json := none }]

/-- A document whose only elements are all marked not visible. -/
def invisibleDoc : List (String × JValue) :=
  [("textures", .jarr [sampleTex "tex"]),
   ("elements", .jarr
     [.jobj [("name", .jstr "hidden1"), ("visibility", .jbool false)],
      .jobj [("name", .jstr "hidden2"), ("visibility", .jbool false)]])]

/-- Eleven colliding output paths; the last one has a distinctive name. -/
def elevenPaths : List String :=
  (List.range 10).map (fun i => "file" ++ pyNatRepr i) ++ ["zzz_eleventh"]

/-! ### Arithmetic facts about the decimal representation -/

theorem digitsVal_append_singleton (l : List Char) (c : Char) :
    digitsVal (l ++ [c]) = digitsVal l * 10 + (c.toNat - 48) := by
  simp [digitsVal, List.foldl_append]

theorem digitCh_toNat {n : Nat} (h : n < 10) : (digitCh n).toNat = 48 + n := by
  interval_cases n <;> decide

theorem natReprAux_val : ∀ (fuel n : Nat), n < fuel → digitsVal (natReprAux fuel n) = n := by
  intro fuel
  induction fuel with
  | zero => intro n h; omega
  | succ fuel ih =>
    intro n h
    by_cases h10 : n < 10
    · have hc := digitCh_toNat h10
      simp only [natReprAux, if_pos h10, digitsVal, List.foldl_cons, List.foldl_nil]
      omega
    · have hdiv : n / 10 < n := Nat.div_lt_self (by omega) (by omega)
      have hrec := ih (n / 10) (by omega)
      have hmod := digitCh_toNat (Nat.mod_lt n (show 0 < 10 by omega))
      have hdm := Nat.div_add_mod n 10
      simp only [natReprAux, if_neg h10, digitsVal_append_singleton]
      omega

theorem pyNatRepr_injective : Function.Injective pyNatRepr := by
  intro a b h
  have hd : natReprAux (a + 1) a = natReprAux (b + 1) b := congrArg String.data h
  have ha := natReprAux_val (a + 1) a (by omega)
  have hb := natReprAux_val (b + 1) b (by omega)
  rw [hd, hb] at ha
  exact ha.symm

theorem natReprAux_all_digits :
    ∀ (fuel n : Nat), ∀ c ∈ natReprAux fuel n, 48 ≤ c.toNat ∧ c.toNat ≤ 57 := by
  intro fuel
  induction fuel with
  | zero => intro n c hc; simp [natReprAux] at hc
  | succ fuel ih =>
    intro n c hc
    by_cases h10 : n < 10
    · simp only [natReprAux, if_pos h10, List.mem_singleton] at hc
      subst hc
      have := digitCh_toNat h10
      omega
    · simp only [natReprAux, if_neg h10, List.mem_append, List.mem_singleton] at hc
      rcases hc with hc | hc
      · exact ih (n / 10) c hc
      · subst hc
        have := digitCh_toNat (Nat.mod_lt n (show 0 < 10 by omega))
        omega

theorem pyNatRepr_ne_particle (n : Nat) : pyNatRepr n ≠ "particle" := by
  intro h
  have hd : natReprAux (n + 1) n = "particle".data := congrArg String.data h
  have hp : 'p' ∈ natReprAux (n + 1) n := by rw [hd]; decide
  have := natReprAux_all_digits (n + 1) n 'p' hp
  simp at this

/-! ### String append facts -/

theorem str_data_append (a b : String) : (a ++ b).data = a.data ++ b.data := by
  cases a; cases b; rfl

theorem str_append_left_cancel {s t u : String} (h : s ++ t = s ++ u) : t = u := by
  apply String.ext
  have hd := congrArg String.data h
  rw [str_data_append, str_data_append] at hd
  exact List.append_cancel_left hd

/-- The de-duplication candidates `stem_k` are pairwise distinct. -/
theorem stem_candidate_injective (stem : String) :
    Function.Injective (fun k => stem ++ "_" ++ pyNatRepr k) := by
  intro a b h
  exact pyNatRepr_injective (str_append_left_cancel (s := stem ++ "_") h)

/-! ### De-duplicated stems are fresh -/

theorem fresh_stem_mem_all (used : List String) (stem : String) :
    ∀ fuel k, fresh_stem used stem fuel k ∈ used →
      ∀ i ≤ fuel, (stem ++ "_" ++ pyNatRepr (k + i)) ∈ used := by
  intro fuel
  induction fuel with
  | zero =>
    intro k h i hi
    interval_cases i
    simpa [fresh_stem] using h
  | succ fuel ih =>
    intro k h i hi
    by_cases hc : (stem ++ "_" ++ pyNatRepr k) ∈ used
    · simp only [fresh_stem, if_pos hc] at h
      match i with
      | 0 => simpa using hc
      | j + 1 =>
        have := ih (k + 1) h j (by omega)
        have harith : k + 1 + j = k + (j + 1) := by omega
        rwa [harith] at this
    · simp only [fresh_stem, if_neg hc] at h
      exact absurd h hc

theorem dedup_stem_not_mem (used : List String) (stem : String) :
    dedup_stem used stem ∉ used := by
  unfold dedup_stem
  by_cases h : stem ∈ used
  · simp only [if_pos h]
    intro hmem
    have hall := fresh_stem_mem_all used stem (used.length + 1) 2 hmem
    have hsub : (Finset.range (used.length + 2)).image
        (fun i => stem ++ "_" ++ pyNatRepr (2 + i)) ⊆ used.toFinset := by
      intro x hx
      rw [Finset.mem_image] at hx
      obtain ⟨i, hi, rfl⟩ := hx
      rw [Finset.mem_range] at hi
      exact List.mem_toFinset.2 (hall i (by omega))
    have hcard : ((Finset.range (used.length + 2)).image
        (fun i => stem ++ "_" ++ pyNatRepr (2 + i))).card = used.length + 2 := by
      rw [Finset.card_image_of_injOn]
      · exact Finset.card_range _
      · intro a _ b _ hab
        have := stem_candidate_injective stem hab
        omega
    have h1 := Finset.card_le_card hsub
    have h2 := List.toFinset_card_le used
    omega
  · simp only [if_neg h]
    exact h

/-! ### Properties of the texture-plan loop -/

theorem build_texture_plans_aux_spec
    (parent : String) (fs : String → Option (List Nat))
    (ns asset variant mn : String) (pt : Bool) :
    ∀ (ts : List JValue) (idx : Nat) (used : List String) (plans : List TexturePlan),
      build_texture_plans_aux parent fs ns asset variant mn pt ts idx used = .ok plans →
      plans.length = ts.length ∧
      plans.map TexturePlan.index = List.range' idx ts.length ∧
      (plans.map TexturePlan.file_stem).Nodup ∧
      ∀ s ∈ plans.map TexturePlan.file_stem, s ∉ used := by
  intro ts
  induction ts with
  | nil =>
    intro idx used plans h
    simp only [build_texture_plans_aux] at h
    cases h
    simp [List.range']
  | cons t rest ih =>
    intro idx used plans h
    cases t with
    | jobj texture =>
      simp only [build_texture_plans_aux] at h
      cases hdec : decode_texture_source texture parent fs idx with
      | error e => rw [hdec] at h; cases h
      | ok data =>
        rw [hdec] at h
        cases hrec : build_texture_plans_aux parent fs ns asset variant mn pt rest
            (idx + 1) (dedup_stem used (texture_stem texture idx mn pt) :: used) with
        | error e => rw [hrec] at h; cases h
        | ok plans' =>
          rw [hrec] at h
          cases h
          obtain ⟨hlen, hidx, hnodup, hused⟩ := ih (idx + 1) _ plans' hrec
          refine ⟨by simp [hlen], ?_, ?_, ?_⟩
          · simp only [List.map_cons, make_texture_plan, hlen.symm ▸ hidx]
            simp [List.range'_succ, hlen, hidx]
          · rw [List.map_cons]
            refine List.nodup_cons.2 ⟨?_, hnodup⟩
            intro hmem
            have := hused _ hmem
            simp only [make_texture_plan] at this hmem ⊢
            exact this (List.mem_cons_self _ _)
          · intro s hs
            rw [List.map_cons] at hs
            rcases List.mem_cons.1 hs with rfl | hs'
            · simpa [make_texture_plan] using dedup_stem_not_mem used _
            · intro hcontra
              exact hused _ hs' (List.mem_cons_of_mem _ hcontra)
    | jnull => simp only [build_texture_plans_aux] at h; cases h
    | jbool b => simp only [build_texture_plans_aux] at h; cases h
    | jint n => simp only [build_texture_plans_aux] at h; cases h
    | jfloat q => simp only [build_texture_plans_aux] at h; cases h
    | jstr s => simp only [build_texture_plans_aux] at h; cases h
    | jarr xs => simp only [build_texture_plans_aux] at h; cases h

/-- Top-level spec of `build_texture_plans`: one plan per declared texture,
indices in declaration order, file stems pairwise distinct. -/
theorem build_texture_plans_spec
    (bbmodel : List (String × JValue)) (parent : String)
    (fs : String → Option (List Nat)) (ns asset variant mn : String) (pt : Bool)
    (ts : List JValue) (plans : List TexturePlan)
    (htex : pyGet bbmodel "textures" = .jarr ts)
    (h : build_texture_plans bbmodel parent fs ns asset variant mn pt = .ok plans) :
    plans.length = ts.length ∧
    plans.map TexturePlan.index = List.range ts.length ∧
    (plans.map TexturePlan.file_stem).Nodup := by
  unfold build_texture_plans at h
  rw [htex] at h
  obtain ⟨hlen, hidx, hnodup, _⟩ :=
    build_texture_plans_aux_spec parent fs ns asset variant mn pt ts 0 [] plans h
  exact ⟨hlen, by rw [hidx, List.range_eq_range'], hnodup⟩

/-! ### Properties of face collection and element conversion -/

theorem collect_faces_ok_empty_iff (lookup : List Int) (resW resH : Int)
    (elem_name : String) (raw_faces : List (String × JValue)) :
    ∀ (names : List String) (fs : List (String × TargetFace)),
      collect_faces lookup resW resH elem_name raw_faces names = .ok fs →
      fs.isEmpty = !names.any (fun n => isJObj (pyGet raw_faces n)) := by
  intro names
  induction names with
  | nil => intro fs h; cases h; rfl
  | cons n rest ih =>
    intro fs h
    cases hv : pyGet raw_faces n with
    | jobj raw_face =>
      simp only [collect_faces, hv] at h
      cases hcf : convert_face lookup resW resH elem_name n raw_face with
      | error e => simp only [hcf] at h; exact Except.noConfusion h
      | ok tf =>
        simp only [hcf] at h
        cases hrec : collect_faces lookup resW resH elem_name raw_faces rest with
        | error e => simp only [hrec] at h; exact Except.noConfusion h
        | ok others =>
          simp only [hrec] at h
          cases h
          simp [hv, isJObj]
    | jnull => simp only [collect_faces, hv] at h; simp [List.any_cons, hv, isJObj, ih fs h]
    | jbool b => simp only [collect_faces, hv] at h; simp [List.any_cons, hv, isJObj, ih fs h]
    | jint m => simp only [collect_faces, hv] at h; simp [List.any_cons, hv, isJObj, ih fs h]
    | jfloat q => simp only [collect_faces, hv] at h; simp [List.any_cons, hv, isJObj, ih fs h]
    | jstr s => simp only [collect_faces, hv] at h; simp [List.any_cons, hv, isJObj, ih fs h]
    | jarr xs => simp only [collect_faces, hv] at h; simp [List.any_cons, hv, isJObj, ih fs h]

theorem convert_face_ok_lookup_ne (lookup : List Int) (resW resH : Int)
    (elem_name face_name : String) (raw_face : List (String × JValue)) (tf : TargetFace)
    (h : convert_face lookup resW resH elem_name face_name raw_face = .ok tf) :
    lookup ≠ [] := by
  unfold convert_face at h
  cases hres : resolve_texture_index (pyGet raw_face "texture") elem_name face_name with
  | error e => simp only [hres] at h; exact Except.noConfusion h
  | ok tex =>
    simp only [hres] at h
    by_cases hmem : tex.intVal ∈ lookup
    · exact List.ne_nil_of_mem hmem
    · rw [if_neg hmem] at h; cases h

theorem collect_faces_ok_ne_nil_lookup_ne (lookup : List Int) (resW resH : Int)
    (elem_name : String) (raw_faces : List (String × JValue)) :
    ∀ (names : List String) (fs : List (String × TargetFace)),
      collect_faces lookup resW resH elem_name raw_faces names = .ok fs →
      fs ≠ [] → lookup ≠ [] := by
  intro names
  induction names with
  | nil => intro fs h hne; cases h; exact absurd rfl hne
  | cons n rest ih =>
    intro fs h hne
    cases hv : pyGet raw_faces n with
    | jobj raw_face =>
      simp only [collect_faces, hv] at h
      cases hcf : convert_face lookup resW resH elem_name n raw_face with
      | error e => simp only [hcf] at h; exact Except.noConfusion h
      | ok tf => exact convert_face_ok_lookup_ne lookup resW resH elem_name n raw_face tf hcf
    | jnull => simp only [collect_faces, hv] at h; exact ih fs h hne
    | jbool b => simp only [collect_faces, hv] at h; exact ih fs h hne
    | jint m => simp only [collect_faces, hv] at h; exact ih fs h hne
    | jfloat q => simp only [collect_faces, hv] at h; exact ih fs h hne
    | jstr s => simp only [collect_faces, hv] at h; exact ih fs h hne
    | jarr xs => simp only [collect_faces, hv] at h; exact ih fs h hne

theorem convert_one_element_ok_isSome (lookup : List Int) (resW resH : Int) (idx : Nat)
    (e : JValue) (r : Option TargetElement)
    (h : convert_one_element lookup resW resH idx e = .ok r) :
    r.isSome = (source_visible e && source_bears_face e) := by
  cases e with
  | jobj elem =>
    simp only [convert_one_element] at h
    by_cases hvis : isJFalse (pyGetD elem "visibility" (.jbool true)) = true
    · rw [if_pos hvis] at h
      cases h
      simp [source_visible, hvis]
    · rw [if_neg hvis] at h
      cases h3 : ensure_list3 (pyGet elem "from") "from"
          (pyStrOr (pyGet elem "name") ("element_" ++ pyNatRepr idx)) with
      | error e1 => simp only [h3] at h; exact Except.noConfusion h
      | ok from_v =>
        simp only [h3] at h
        cases h4 : ensure_list3 (pyGet elem "to") "to"
            (pyStrOr (pyGet elem "name") ("element_" ++ pyNatRepr idx)) with
        | error e1 => simp only [h4] at h; exact Except.noConfusion h
        | ok to_v =>
          simp only [h4] at h
          cases h5 : convert_rotation (pyGet elem "rotation") elem
              (pyStrOr (pyGet elem "name") ("element_" ++ pyNatRepr idx)) with
          | error e1 => simp only [h5] at h; exact Except.noConfusion h
          | ok rot =>
            simp only [h5] at h
            cases hfac : pyGet elem "faces" with
            | jobj raw_faces =>
              simp only [hfac] at h
              cases hcol : collect_faces lookup resW resH
                  (pyStrOr (pyGet elem "name") ("element_" ++ pyNatRepr idx))
                  raw_faces VALID_FACES with
              | error e1 => simp only [hcol] at h; exact Except.noConfusion h
              | ok faces =>
                simp only [hcol] at h
                have hemp := collect_faces_ok_empty_iff lookup resW resH
                  (pyStrOr (pyGet elem "name") ("element_" ++ pyNatRepr idx))
                  raw_faces VALID_FACES faces hcol
                have hv2 : isJFalse (pyGetD elem "visibility" (.jbool true)) = false := by
                  simpa using hvis
                by_cases hfe : faces.isEmpty
                · rw [if_pos hfe] at h
                  cases h
                  have hany : (VALID_FACES.any fun n => isJObj (pyGet raw_faces n)) = false := by
                    rw [hfe] at hemp; simpa using hemp.symm
                  simp [source_visible, source_bears_face, hfac, hv2, hany]
                · rw [if_neg hfe] at h
                  cases h
                  have hfe2 : faces.isEmpty = false := by simpa using hfe
                  have hany : (VALID_FACES.any fun n => isJObj (pyGet raw_faces n)) = true := by
                    rw [hfe2] at hemp; simpa using hemp.symm
                  simp [source_visible, source_bears_face, hfac, hv2, hany]
            | jnull => simp only [hfac] at h; exact Except.noConfusion h
            | jbool b => simp only [hfac] at h; exact Except.noConfusion h
            | jint n => simp only [hfac] at h; exact Except.noConfusion h
            | jfloat q => simp only [hfac] at h; exact Except.noConfusion h
            | jstr s => simp only [hfac] at h; exact Except.noConfusion h
            | jarr xs => simp only [hfac] at h; exact Except.noConfusion h
  | jnull => simp only [convert_one_element] at h; exact Except.noConfusion h
  | jbool b => simp only [convert_one_element] at h; exact Except.noConfusion h
  | jint n => simp only [convert_one_element] at h; exact Except.noConfusion h
  | jfloat q => simp only [convert_one_element] at h; exact Except.noConfusion h
  | jstr s => simp only [convert_one_element] at h; exact Except.noConfusion h
  | jarr xs => simp only [convert_one_element] at h; exact Except.noConfusion h

theorem convert_one_element_ok_some_lookup_ne (lookup : List Int) (resW resH : Int)
    (idx : Nat) (e : JValue) (te : TargetElement)
    (h : convert_one_element lookup resW resH idx e = .ok (some te)) :
    lookup ≠ [] := by
  cases e with
  | jobj elem =>
    simp only [convert_one_element] at h
    by_cases hvis : isJFalse (pyGetD elem "visibility" (.jbool true)) = true
    · rw [if_pos hvis] at h; simp at h
    · rw [if_neg hvis] at h
      cases h3 : ensure_list3 (pyGet elem "from") "from"
          (pyStrOr (pyGet elem "name") ("element_" ++ pyNatRepr idx)) with
      | error e1 => simp only [h3] at h; exact Except.noConfusion h
      | ok from_v =>
        simp only [h3] at h
        cases h4 : ensure_list3 (pyGet elem "to") "to"
            (pyStrOr (pyGet elem "name") ("element_" ++ pyNatRepr idx)) with
        | error e1 => simp only [h4] at h; exact Except.noConfusion h
        | ok to_v =>
          simp only [h4] at h
          cases h5 : convert_rotation (pyGet elem "rotation") elem
              (pyStrOr (pyGet elem "name") ("element_" ++ pyNatRepr idx)) with
          | error e1 => simp only [h5] at h; exact Except.noConfusion h
          | ok rot =>
            simp only [h5] at h
            cases hfac : pyGet elem "faces" with
            | jobj raw_faces =>
              simp only [hfac] at h
              cases hcol : collect_faces lookup resW resH
                  (pyStrOr (pyGet elem "name") ("element_" ++ pyNatRepr idx))
                  raw_faces VALID_FACES with
              | error e1 => simp only [hcol] at h; exact Except.noConfusion h
              | ok faces =>
                simp only [hcol] at h
                by_cases hfe : faces.isEmpty
                · rw [if_pos hfe] at h; simp at h
                · refine collect_faces_ok_ne_nil_lookup_ne lookup resW resH _ raw_faces
                    VALID_FACES faces hcol ?_
                  intro hnil
                  rw [hnil] at hfe
                  exact hfe rfl
            | jnull => simp only [hfac] at h; exact Except.noConfusion h
            | jbool b => simp only [hfac] at h; exact Except.noConfusion h
            | jint n => simp only [hfac] at h; exact Except.noConfusion h
            | jfloat q => simp only [hfac] at h; exact Except.noConfusion h
            | jstr s => simp only [hfac] at h; exact Except.noConfusion h
            | jarr xs => simp only [hfac] at h; exact Except.noConfusion h
  | jnull => simp only [convert_one_element] at h; exact Except.noConfusion h
  | jbool b => simp only [convert_one_element] at h; exact Except.noConfusion h
  | jint n => simp only [convert_one_element] at h; exact Except.noConfusion h
  | jfloat q => simp only [convert_one_element] at h; exact Except.noConfusion h
  | jstr s => simp only [convert_one_element] at h; exact Except.noConfusion h
  | jarr xs => simp only [convert_one_element] at h; exact Except.noConfusion h

theorem convert_elements_ok_eq (lookup : List Int) (resW resH : Int) :
    ∀ (l : List JValue) (idx : Nat) (out : List TargetElement),
      convert_elements lookup resW resH l idx = .ok out →
      out = (List.enumFrom idx l).filterMap
        (fun p => (convert_one_element lookup resW resH p.1 p.2).toOption.bind id) := by
  intro l
  induction l with
  | nil => intro idx out h; cases h; rfl
  | cons e rest ih =>
    intro idx out h
    simp only [convert_elements] at h
    cases h1 : convert_one_element lookup resW resH idx e with
    | error err => simp only [h1] at h; exact Except.noConfusion h
    | ok r =>
      simp only [h1] at h
      cases hrec : convert_elements lookup resW resH rest (idx + 1) with
      | error err => simp only [hrec] at h; exact Except.noConfusion h
      | ok rs =>
        simp only [hrec] at h
        have hrs := ih (idx + 1) rs hrec
        cases r with
        | none =>
          cases h
          simp [List.enumFrom, List.filterMap_cons, h1, Except.toOption, hrs]
        | some te =>
          cases h
          simp [List.enumFrom, List.filterMap_cons, h1, Except.toOption, hrs]

theorem convert_elements_ok_length (lookup : List Int) (resW resH : Int) :
    ∀ (l : List JValue) (idx : Nat) (out : List TargetElement),
      convert_elements lookup resW resH l idx = .ok out →
      out.length =
        (l.filter (fun e => source_visible e && source_bears_face e)).length := by
  intro l
  induction l with
  | nil => intro idx out h; cases h; rfl
  | cons e rest ih =>
    intro idx out h
    simp only [convert_elements] at h
    cases h1 : convert_one_element lookup resW resH idx e with
    | error err => simp only [h1] at h; exact Except.noConfusion h
    | ok r =>
      simp only [h1] at h
      cases hrec : convert_elements lookup resW resH rest (idx + 1) with
      | error err => simp only [hrec] at h; exact Except.noConfusion h
      | ok rs =>
        simp only [hrec] at h
        have hchar := convert_one_element_ok_isSome lookup resW resH idx e r h1
        have hrs := ih (idx + 1) rs hrec
        cases r with
        | none =>
          cases h
          have hcond : (source_visible e && source_bears_face e) = false := by
            simpa using hchar.symm
          simp [List.filter_cons, hcond, hrs]
        | some te =>
          cases h
          have hcond : (source_visible e && source_bears_face e) = true := by
            simpa using hchar.symm
          simp [List.filter_cons, hcond, hrs]

theorem convert_elements_ok_ne_nil_lookup_ne (lookup : List Int) (resW resH : Int) :
    ∀ (l : List JValue) (idx : Nat) (out : List TargetElement),
      convert_elements lookup resW resH l idx = .ok out →
      out ≠ [] → lookup ≠ [] := by
  intro l
  induction l with
  | nil => intro idx out h hne; cases h; exact absurd rfl hne
  | cons e rest ih =>
    intro idx out h hne
    simp only [convert_elements] at h
    cases h1 : convert_one_element lookup resW resH idx e with
    | error err => simp only [h1] at h; exact Except.noConfusion h
    | ok r =>
      simp only [h1] at h
      cases hrec : convert_elements lookup resW resH rest (idx + 1) with
      | error err => simp only [hrec] at h; exact Except.noConfusion h
      | ok rs =>
        simp only [hrec] at h
        cases r with
        | none =>
          cases h
          exact ih (idx + 1) _ hrec hne
        | some te =>
          exact convert_one_element_ok_some_lookup_ne lookup resW resH idx e te h1

/-! ### Properties of the assembled document -/

theorem texture_object_spec (plans : List TexturePlan) (hne : plans ≠ []) :
    (texture_object plans).length = plans.length + 1 ∧
    (texture_object plans).map Prod.fst =
      plans.map (fun p => pyNatRepr p.index) ++ ["particle"] := by
  cases plans with
  | nil => exact absurd rfl hne
  | cons p0 ps =>
    constructor
    · simp [texture_object]
    · simp [texture_object]

theorem build_model_json_spec (bbmodel : List (String × JValue))
    (plans : List TexturePlan) (resW resH : Int) (elems : List JValue)
    (out : TargetModel)
    (helems : pyGet bbmodel "elements" = .jarr elems)
    (h : build_model_json bbmodel plans resW resH = .ok out) :
    plans ≠ [] ∧
    out.textures = texture_object plans ∧
    out.elements ≠ [] ∧
    out.elements.length =
      (elems.filter (fun e => source_visible e && source_bears_face e)).length ∧
    out.elements = (List.enumFrom 0 elems).filterMap
      (fun p => (convert_one_element (plans.map fun q => (q.index : Int)) resW resH
        p.1 p.2).toOption.bind id) := by
  simp only [build_model_json, helems] at h
  cases hconv : convert_elements (plans.map fun q => (q.index : Int)) resW resH elems 0 with
  | error e => simp only [hconv] at h; exact Except.noConfusion h
  | ok converted =>
    simp only [hconv] at h
    by_cases hie : converted.isEmpty
    · rw [if_pos hie] at h; exact Except.noConfusion h
    · rw [if_neg hie] at h
      cases h
      have hne : converted ≠ [] := by
        intro hnil; rw [hnil] at hie; exact hie rfl
      have hlook := convert_elements_ok_ne_nil_lookup_ne _ resW resH elems 0 converted hconv hne
      refine ⟨?_, rfl, hne, ?_, ?_⟩
      · intro hpn
        exact hlook (by rw [hpn]; rfl)
      · exact convert_elements_ok_length _ resW resH elems 0 converted hconv
      · exact convert_elements_ok_eq _ resW resH elems 0 converted hconv

/-! ### Claim C1 -/

/-- C1: for every valid source document with `N` declared textures and `M`
visible, texture-bearing elements, the produced target document's texture
table has exactly `N + 1` entries — the string forms of the indices
`0 .. N-1` plus the literal key `particle` aliasing the first texture's
resource reference — and its element array has exactly `M` entries, in
source declaration order. -/
theorem claim_C1 (bbmodel : List (String × JValue)) (parent : String)
    (fs : String → Option (List Nat)) (ns asset variant mn : String) (pt : Bool)
    (ts elems : List JValue) (plans : List TexturePlan) (out : TargetModel)
    (resW resH : Int)
    (htex : pyGet bbmodel "textures" = .jarr ts)
    (helems : pyGet bbmodel "elements" = .jarr elems)
    (hp : build_texture_plans bbmodel parent fs ns asset variant mn pt = .ok plans)
    (hm : build_model_json bbmodel plans resW resH = .ok out) :
    out.textures.length = ts.length + 1 ∧
    (out.textures.map Prod.fst).Nodup ∧
    out.textures.map Prod.fst = (List.range ts.length).map pyNatRepr ++ ["particle"] ∧
    (∃ p0 ps, plans = p0 :: ps ∧
      out.textures =
        plans.map (fun p => (pyNatRepr p.index, p.rel_namespace_path)) ++
          [("particle", p0.rel_namespace_path)]) ∧
    out.elements.length =
      (elems.filter (fun e => source_visible e && source_bears_face e)).length ∧
    out.elements = (List.enumFrom 0 elems).filterMap
      (fun p => (convert_one_element (plans.map fun q => (q.index : Int)) resW resH
        p.1 p.2).toOption.bind id) := by
  obtain ⟨hplen, hpidx, _⟩ :=
    build_texture_plans_spec bbmodel parent fs ns asset variant mn pt ts plans htex hp
  obtain ⟨hpne, htexeq, _, hcount, heq⟩ :=
    build_model_json_spec bbmodel plans resW resH elems out helems hm
  obtain ⟨hozlen, hkeys⟩ := texture_object_spec plans hpne
  have hkeymap : plans.map (fun p => pyNatRepr p.index) =
      (List.range ts.length).map pyNatRepr := by
    calc plans.map (fun p => pyNatRepr p.index)
        = (plans.map TexturePlan.index).map pyNatRepr := by
          rw [List.map_map]; rfl
      _ = (List.range ts.length).map pyNatRepr := by rw [hpidx]
  refine ⟨?_, ?_, ?_, ?_, hcount, heq⟩
  · rw [htexeq, hozlen, hplen]
  · rw [htexeq, hkeys, hkeymap]
    rw [List.nodup_append]
    refine ⟨List.Nodup.map pyNatRepr_injective (List.nodup_range _), List.nodup_singleton _, ?_⟩
    intro a ha hb
    rw [List.mem_map] at ha
    obtain ⟨n, _, rfl⟩ := ha
    rw [List.mem_singleton] at hb
    exact pyNatRepr_ne_particle n hb
  · rw [htexeq, hkeys, hkeymap]
  · cases plans with
    | nil => exact absurd rfl hpne
    | cons p0 ps =>
      exact ⟨p0, ps, rfl, by rw [htexeq]; rfl⟩

/-- Evaluation witness for C1: the one-texture one-cube document yields a
two-entry texture table and a one-element array. -/
theorem claim_C1_witness :
    ∃ (plans : List TexturePlan) (out : TargetModel),
      build_texture_plans sampleDoc "/src" noFs "ns" "asset" "default" "model" false
        = .ok plans ∧
      build_model_json sampleDoc plans 16 16 = .ok out ∧
      out.textures.length = 2 ∧
      out.elements.length = 1 ∧
      out.textures.map Prod.fst = ["0", "particle"] := by
  have hp : build_texture_plans sampleDoc "/src" noFs "ns" "asset" "default" "model" false
      = .ok [samplePlan] := rfl
  obtain ⟨out, hm⟩ : ∃ out, build_model_json sampleDoc [samplePlan] 16 16 = .ok out :=
    ⟨_, rfl⟩
  have hc := claim_C1 sampleDoc "/src" noFs "ns" "asset" "default" "model" false
    [sampleTex "tex"] [sampleCube] [samplePlan] out 16 16 rfl rfl hp hm
  refine ⟨[samplePlan], out, hp, hm, hc.1, ?_, ?_⟩
  · exact (hc.2.2.2.2.1).trans (by rfl)
  · exact (hc.2.2.1).trans (by rfl)

/-! ### Claim C2 -/

theorem isAnimated_uv_iff (width height uv_width uv_height : Int)
    (h1 : 0 < uv_width) (h2 : 0 < uv_height) :
    isAnimatedTexture width height uv_width uv_height = true ↔
      (if 0 < height then (height : ℚ) / (uv_height : ℚ) else 0) >
        (if 0 < width then (width : ℚ) / (uv_width : ℚ) else 0) := by
  simp only [isAnimatedTexture, gt_iff_lt]
  rw [if_pos]
  · rw [decide_eq_true_eq]
  · simp [h1, h2]

theorem isAnimated_fallback_iff (width height uv_width uv_height : Int)
    (hnot : ¬(0 < uv_width ∧ 0 < uv_height)) :
    isAnimatedTexture width height uv_width uv_height = true ↔
      0 < width ∧ width < height := by
  simp only [isAnimatedTexture, gt_iff_lt]
  rw [if_neg]
  · simp only [Bool.and_eq_true, decide_eq_true_eq]
  · intro hc
    rw [Bool.and_eq_true, decide_eq_true_eq, decide_eq_true_eq] at hc
    exact hnot hc

/-- C2: animation classification is a strict comparison: with both UV
dimensions positive, a texture is animated iff `height/uv_height` strictly
exceeds `width/uv_width` (a ratio is `0` when the pixel dimension is not
positive), so the boundary texture `16×32` with `uv 16×32` (equal ratios) is
NOT animated; without positive UV dimensions the fallback classifies
animated iff `width > 0` and `height > width`. -/
theorem claim_C2 (width height uv_width uv_height : Int) :
    (0 < uv_width → 0 < uv_height →
      (isAnimatedTexture width height uv_width uv_height = true ↔
        (if 0 < height then (height : ℚ) / (uv_height : ℚ) else 0) >
          (if 0 < width then (width : ℚ) / (uv_width : ℚ) else 0))) ∧
    (¬(0 < uv_width ∧ 0 < uv_height) →
      (isAnimatedTexture width height uv_width uv_height = true ↔
        0 < width ∧ width < height)) ∧
    isAnimatedTexture 16 32 16 32 = false := by
  refine ⟨isAnimated_uv_iff width height uv_width uv_height,
    isAnimated_fallback_iff width height uv_width uv_height, ?_⟩
  rw [← Bool.not_eq_true]
  intro habs
  rw [isAnimated_uv_iff 16 32 16 32 (by norm_num) (by norm_num)] at habs
  norm_num at habs

/-- Evaluation witness for C2: the boundary texture is not animated; a
properly taller texture is; the fallback fires when UV metadata is absent. -/
theorem claim_C2_witness :
    isAnimatedTexture 16 32 16 32 = false ∧
    (isAnimatedTexture 16 32 16 16 = true ↔
      (if (0 : Int) < 32 then (32 : ℚ) / (16 : ℚ) else 0) >
        (if (0 : Int) < 16 then (16 : ℚ) / (16 : ℚ) else 0)) ∧
    (isAnimatedTexture 20 30 0 5 = true ↔ 0 < (20 : Int) ∧ (20 : Int) < 30) :=
  ⟨(claim_C2 16 32 16 32).2.2,
   (claim_C2 16 32 16 16).1 (by norm_num) (by norm_num),
   (claim_C2 20 30 0 5).2.1 (by norm_num)⟩

/-! ### Claim C3 -/

theorem fresh_stem_first_free (used : List String) (stem : String) :
    ∀ fuel k, fresh_stem used stem fuel k ∉ used →
      ∃ m, k ≤ m ∧ fresh_stem used stem fuel k = stem ++ "_" ++ pyNatRepr m ∧
        ∀ j, k ≤ j → j < m → (stem ++ "_" ++ pyNatRepr j) ∈ used := by
  intro fuel
  induction fuel with
  | zero =>
    intro k _
    exact ⟨k, Nat.le_refl k, rfl, fun j hj1 hj2 => absurd hj2 (by omega)⟩
  | succ fuel ih =>
    intro k h
    by_cases hc : (stem ++ "_" ++ pyNatRepr k) ∈ used
    · simp only [fresh_stem, if_pos hc] at h ⊢
      obtain ⟨m, hm1, hm2, hm3⟩ := ih (k + 1) h
      refine ⟨m, by omega, hm2, fun j hj1 hj2 => ?_⟩
      rcases Nat.eq_or_lt_of_le hj1 with rfl | hj
      · exact hc
      · exact hm3 j (by omega) hj2
    · simp only [fresh_stem, if_neg hc] at h ⊢
      exact ⟨k, Nat.le_refl k, rfl, fun j hj1 hj2 => absurd hj2 (by omega)⟩

/-- C3: texture stem de-duplication — within one run the emitted file stems
are pairwise distinct; a candidate stem already in use receives the first
free suffix `_2`, `_3`, …; two source textures both named `tex` produce
stems `tex` and `tex_2`. -/
theorem claim_C3 :
    (∀ (bbmodel : List (String × JValue)) (parent : String)
       (fs : String → Option (List Nat)) (ns asset variant mn : String) (pt : Bool)
       (ts : List JValue) (plans : List TexturePlan),
       pyGet bbmodel "textures" = .jarr ts →
       build_texture_plans bbmodel parent fs ns asset variant mn pt = .ok plans →
       (plans.map TexturePlan.file_stem).Nodup) ∧
    (∀ (used : List String) (stem : String),
       dedup_stem used stem ∉ used ∧
       (stem ∉ used → dedup_stem used stem = stem) ∧
       (stem ∈ used → ∃ m, 2 ≤ m ∧
         dedup_stem used stem = stem ++ "_" ++ pyNatRepr m ∧
         ∀ j, 2 ≤ j → j < m → (stem ++ "_" ++ pyNatRepr j) ∈ used)) ∧
    (build_texture_plans sampleDoc2 "/src" noFs "ns" "asset" "default" "model" false
       = .ok samplePlans2 ∧
     samplePlans2.map TexturePlan.file_stem = ["tex", "tex_2"]) := by
  refine ⟨?_, ?_, rfl, rfl⟩
  · intro bbmodel parent fs ns asset variant mn pt ts plans htex hp
    exact (build_texture_plans_spec bbmodel parent fs ns asset variant mn pt
      ts plans htex hp).2.2
  · intro used stem
    refine ⟨dedup_stem_not_mem used stem, ?_, ?_⟩
    · intro hnot
      simp [dedup_stem, hnot]
    · intro hmem
      have hfresh : fresh_stem used stem (used.length + 1) 2 ∉ used := by
        have := dedup_stem_not_mem used stem
        simpa [dedup_stem, hmem] using this
      obtain ⟨m, hm1, hm2, hm3⟩ := fresh_stem_first_free used stem (used.length + 1) 2 hfresh
      refine ⟨m, hm1, ?_, hm3⟩
      simp [dedup_stem, hmem, hm2]

/-- Evaluation witness for C3: applying the claim to the two-`tex` document
and to the one-element used set. -/
theorem claim_C3_witness :
    (samplePlans2.map TexturePlan.file_stem).Nodup ∧
    dedup_stem ["tex"] "tex" ∉ ["tex"] :=
  ⟨claim_C3.1 sampleDoc2 "/src" noFs "ns" "asset" "default" "model" false
      [sampleTex "tex", sampleTex "tex"] samplePlans2 rfl rfl,
   (claim_C3.2.1 ["tex"] "tex").1⟩

/-! ### Claim C4 -/

/-- C4: for an element rotation given as a 3-vector, axes of magnitude at
most `1e-7` count as zero; more than one non-zero axis is an
`UnsupportedRotation` failure; exactly one non-zero axis yields that axis
and angle with the origin taken from the element's own `origin` field; all
axes zero yields no rotation. -/
theorem claim_C4 (a b c : JValue) (x y z : ℚ) (elem : List (String × JValue))
    (elem_name : String)
    (ha : pyFloat a = some x) (hb : pyFloat b = some y) (hc : pyFloat c = some z) :
    ((|x| ≤ rotEps ∧ |y| ≤ rotEps ∧ |z| ≤ rotEps) →
      convert_rotation (.jarr [a, b, c]) elem elem_name = .ok none) ∧
    (((|x| > rotEps ∧ |y| > rotEps) ∨ (|x| > rotEps ∧ |z| > rotEps) ∨
        (|y| > rotEps ∧ |z| > rotEps)) →
      ∃ msg, convert_rotation (.jarr [a, b, c]) elem elem_name = .error msg) ∧
    (∀ (o : ℚ × ℚ × ℚ), |x| > rotEps → |y| ≤ rotEps → |z| ≤ rotEps →
      ensure_list3 (pyGet elem "origin") "origin" elem_name = .ok o →
      convert_rotation (.jarr [a, b, c]) elem elem_name =
        .ok (some { axis := "x", angle := x, origin := o, rescale := false })) ∧
    (∀ (o : ℚ × ℚ × ℚ), |x| ≤ rotEps → |y| > rotEps → |z| ≤ rotEps →
      ensure_list3 (pyGet elem "origin") "origin" elem_name = .ok o →
      convert_rotation (.jarr [a, b, c]) elem elem_name =
        .ok (some { axis := "y", angle := y, origin := o, rescale := false })) ∧
    (∀ (o : ℚ × ℚ × ℚ), |x| ≤ rotEps → |y| ≤ rotEps → |z| > rotEps →
      ensure_list3 (pyGet elem "origin") "origin" elem_name = .ok o →
      convert_rotation (.jarr [a, b, c]) elem elem_name =
        .ok (some { axis := "z", angle := z, origin := o, rescale := false })) := by
  have key : convert_rotation (.jarr [a, b, c]) elem elem_name =
      (match nonZeroAxes (x, y, z) with
       | [] => .ok none
       | [av] =>
         match ensure_list3 (pyGet elem "origin") "origin" elem_name with
         | .error e => .error e
         | .ok o => .ok (some { axis := av.1, angle := av.2, origin := o, rescale := false })
       | _ => .error ("Element '" ++ elem_name ++ "' has multi-axis rotation [" ++
           pyFloatRepr x ++ ", " ++ pyFloatRepr y ++ ", " ++ pyFloatRepr z ++
           "]; cannot represent in one vanilla cube rotation.")) := by
    simp only [convert_rotation, ensure_list3, ha, hb, hc]
  refine ⟨?_, ?_, ?_, ?_, ?_⟩
  · rintro ⟨h1, h2, h3⟩
    have dx : decide (|x| > rotEps) = false := decide_eq_false (not_lt.2 h1)
    have dy : decide (|y| > rotEps) = false := decide_eq_false (not_lt.2 h2)
    have dz : decide (|z| > rotEps) = false := decide_eq_false (not_lt.2 h3)
    have hnz : nonZeroAxes (x, y, z) = [] := by
      simp [nonZeroAxes, List.filter, dx, dy, dz]
    rw [key, hnz]
  · intro hmulti
    rcases hmulti with ⟨h1, h2⟩ | ⟨h1, h2⟩ | ⟨h1, h2⟩
    · have dx : decide (|x| > rotEps) = true := decide_eq_true h1
      have dy : decide (|y| > rotEps) = true := decide_eq_true h2
      by_cases h3 : |z| > rotEps
      · have dz := decide_eq_true h3
        have hnz : nonZeroAxes (x, y, z) = [("x", x), ("y", y), ("z", z)] := by
          simp [nonZeroAxes, List.filter, dx, dy, dz]
        rw [key, hnz]
        exact ⟨_, rfl⟩
      · have dz := decide_eq_false h3
        have hnz : nonZeroAxes (x, y, z) = [("x", x), ("y", y)] := by
          simp [nonZeroAxes, List.filter, dx, dy, dz]
        rw [key, hnz]
        exact ⟨_, rfl⟩
    · have dx : decide (|x| > rotEps) = true := decide_eq_true h1
      have dz : decide (|z| > rotEps) = true := decide_eq_true h2
      by_cases h3 : |y| > rotEps
      · have dy := decide_eq_true h3
        have hnz : nonZeroAxes (x, y, z) = [("x", x), ("y", y), ("z", z)] := by
          simp [nonZeroAxes, List.filter, dx, dy, dz]
        rw [key, hnz]
        exact ⟨_, rfl⟩
      · have dy := decide_eq_false h3
        have hnz : nonZeroAxes (x, y, z) = [("x", x), ("z", z)] := by
          simp [nonZeroAxes, List.filter, dx, dy, dz]
        rw [key, hnz]
        exact ⟨_, rfl⟩
    · have dy : decide (|y| > rotEps) = true := decide_eq_true h1
      have dz : decide (|z| > rotEps) = true := decide_eq_true h2
      by_cases h3 : |x| > rotEps
      · have dx := decide_eq_true h3
        have hnz : nonZeroAxes (x, y, z) = [("x", x), ("y", y), ("z", z)] := by
          simp [nonZeroAxes, List.filter, dx, dy, dz]
        rw [key, hnz]
        exact ⟨_, rfl⟩
      · have dx := decide_eq_false h3
        have hnz : nonZeroAxes (x, y, z) = [("y", y), ("z", z)] := by
          simp [nonZeroAxes, List.filter, dx, dy, dz]
        rw [key, hnz]
        exact ⟨_, rfl⟩
  · intro o h1 h2 h3 ho
    have dx := decide_eq_true h1
    have dy := decide_eq_false (not_lt.2 h2)
    have dz := decide_eq_false (not_lt.2 h3)
    have hnz : nonZeroAxes (x, y, z) = [("x", x)] := by
      simp [nonZeroAxes, List.filter, dx, dy, dz]
    rw [key, hnz, ho]
  · intro o h1 h2 h3 ho
    have dx := decide_eq_false (not_lt.2 h1)
    have dy := decide_eq_true h2
    have dz := decide_eq_false (not_lt.2 h3)
    have hnz : nonZeroAxes (x, y, z) = [("y", y)] := by
      simp [nonZeroAxes, List.filter, dx, dy, dz]
    rw [key, hnz, ho]
  · intro o h1 h2 h3 ho
    have dx := decide_eq_false (not_lt.2 h1)
    have dy := decide_eq_false (not_lt.2 h2)
    have dz := decide_eq_true h3
    have hnz : nonZeroAxes (x, y, z) = [("z", z)] := by
      simp [nonZeroAxes, List.filter, dx, dy, dz]
    rw [key, hnz, ho]

/-- Evaluation witness for C4: `[0, 45, 30]` fails, `[0, 45, 0]` succeeds
with axis `y`, angle `45` and the element's own origin, `[0, 0, 0]` yields
no rotation. -/
theorem claim_C4_witness :
    (∃ msg, convert_rotation (.jarr [.jint 0, .jint 45, .jint 30])
        [("origin", .jarr [.jint 0, .jint 0, .jint 0])] "el" = .error msg) ∧
    convert_rotation (.jarr [.jint 0, .jint 45, .jint 0])
        [("origin", .jarr [.jint 0, .jint 0, .jint 0])] "el" =
      .ok (some { axis := "y", angle := 45, origin := (0, 0, 0), rescale := false }) ∧
    convert_rotation (.jarr [.jint 0, .jint 0, .jint 0]) [] "el" = .ok none := by
  refine ⟨?_, ?_, ?_⟩
  · exact (claim_C4 (.jint 0) (.jint 45) (.jint 30) 0 45 30
      [("origin", .jarr [.jint 0, .jint 0, .jint 0])] "el" rfl rfl rfl).2.1
      (Or.inr (Or.inr ⟨by norm_num [rotEps], by norm_num [rotEps]⟩))
  · exact (claim_C4 (.jint 0) (.jint 45) (.jint 0) 0 45 0
      [("origin", .jarr [.jint 0, .jint 0, .jint 0])] "el" rfl rfl rfl).2.2.2.1
      (0, 0, 0) (by norm_num [rotEps]) (by norm_num [rotEps]) (by norm_num [rotEps]) rfl
  · exact (claim_C4 (.jint 0) (.jint 0) (.jint 0) 0 0 0 [] "el" rfl rfl rfl).1
      ⟨by norm_num [rotEps], by norm_num [rotEps], by norm_num [rotEps]⟩

/-! ### Claim C5 -/

/-- C5: UV rescaling is the identity at the default 16×16 resolution: each
UV x-coordinate is divided by `resolution.width / 16` and each y-coordinate
by `resolution.height / 16`, a non-positive scale factor being replaced by
`1.0`; the default-resolution cube converts to six faces with texture `#0`
and UV `[0, 0, 16, 16]`. -/
theorem claim_C5 :
    (∀ uv : ℚ × ℚ × ℚ × ℚ, convert_face_uv uv 16 16 = uv) ∧
    (∀ (uv : ℚ × ℚ × ℚ × ℚ) (w h : Int), 0 < w → 0 < h →
      convert_face_uv uv w h =
        (uv.1 / ((w : ℚ) / 16), uv.2.1 / ((h : ℚ) / 16),
         uv.2.2.1 / ((w : ℚ) / 16), uv.2.2.2 / ((h : ℚ) / 16))) ∧
    (∀ (uv : ℚ × ℚ × ℚ × ℚ) (w h : Int), w ≤ 0 → h ≤ 0 →
      convert_face_uv uv w h = uv) ∧
    build_model_json sampleDoc [samplePlan] 16 16 =
      .ok { textures := [("0", "ns:item/asset/default/tex"),
                         ("particle", "ns:item/asset/default/tex")],
            elements := [{ from_v := (0, 0, 0), to_v := (16, 16, 16),
                           rotation := none, shade_false := false,
                           light_emission := none,
                           faces := VALID_FACES.map (fun n => (n,
                             { uv := (0, 0, 16, 16), texture := "#0",
                               rotation := none, tintindex := none })) }],
            gui_light_front := false, display := none } := by
  have hid : ∀ uv : ℚ × ℚ × ℚ × ℚ, convert_face_uv uv 16 16 = uv := by
    intro ⟨a, b, c, d⟩
    simp [convert_face_uv]
  refine ⟨hid, ?_, ?_, ?_⟩
  · intro ⟨a, b, c, d⟩ w h hw hh
    have hw' : ¬ ((w : ℚ) / 16 ≤ 0) := by
      rw [not_le]
      have : (0 : ℚ) < (w : ℚ) := by exact_mod_cast hw
      positivity
    have hh' : ¬ ((h : ℚ) / 16 ≤ 0) := by
      rw [not_le]
      have : (0 : ℚ) < (h : ℚ) := by exact_mod_cast hh
      positivity
    simp only [convert_face_uv, if_neg hw', if_neg hh']
  · intro ⟨a, b, c, d⟩ w h hw hh
    have hw' : (w : ℚ) / 16 ≤ 0 := by
      apply div_nonpos_of_nonpos_of_nonneg
      · exact_mod_cast hw
      · norm_num
    have hh' : (h : ℚ) / 16 ≤ 0 := by
      apply div_nonpos_of_nonpos_of_nonneg
      · exact_mod_cast hh
      · norm_num
    simp only [convert_face_uv, if_pos hw', if_pos hh']
    simp
  · have h0 : build_model_json sampleDoc [samplePlan] 16 16 =
        .ok { textures := [("0", "ns:item/asset/default/tex"),
                           ("particle", "ns:item/asset/default/tex")],
              elements := [{ from_v := (0, 0, 0), to_v := (16, 16, 16),
                             rotation := none, shade_false := false,
                             light_emission := none,
                             faces := VALID_FACES.map (fun n => (n,
                               { uv := convert_face_uv (0, 0, 16, 16) 16 16,
                                 texture := "#0",
                                 rotation := none, tintindex := none })) }],
              gui_light_front := false, display := none } := rfl
    rw [hid (0, 0, 16, 16)] at h0
    exact h0

/-- Evaluation witness for C5: identity at 16×16, true rescaling at 32×16,
fallback scale `1.0` at non-positive resolution. -/
theorem claim_C5_witness :
    convert_face_uv ((1 : ℚ), 2, 3, 4) 16 16 = (1, 2, 3, 4) ∧
    convert_face_uv ((8 : ℚ), 8, 8, 8) 32 16 =
      (8 / ((32 : ℚ) / 16), 8 / ((16 : ℚ) / 16), 8 / ((32 : ℚ) / 16), 8 / ((16 : ℚ) / 16)) ∧
    convert_face_uv ((1 : ℚ), 2, 3, 4) 0 (-5) = (1, 2, 3, 4) :=
  ⟨claim_C5.1 _,
   claim_C5.2.1 _ 32 16 (by norm_num) (by norm_num),
   claim_C5.2.2.1 _ 0 (-5) (by norm_num) (by norm_num)⟩

/-! ### Claim C6 -/

/-- C6: for a texture whose `source` is an inline data URI, decoding fails
exactly when the comma separator is absent or the base64 payload is
malformed, and returns the decoded bytes otherwise; for a non-data-URI
source string the path is resolved against the document's directory unless
absolute, and a missing-external-asset error is raised exactly when the
resolved file does not exist. -/
theorem claim_C6 (texture : List (String × JValue)) (parent : String)
    (fs : String → Option (List Nat)) (idx : Nat) (s : String)
    (hsource : pyGet texture "source" = .jstr s) :
    (strStarts s "data:" = true →
      (findComma s = none → decode_texture_source texture parent fs idx =
        .error ("Texture " ++ pyNatRepr idx ++ " has malformed data URL.")) ∧
      (∀ i, findComma s = some i →
        (∀ bs, b64decode ⟨s.data.drop (i + 1)⟩ = some bs →
          decode_texture_source texture parent fs idx = .ok bs) ∧
        (b64decode ⟨s.data.drop (i + 1)⟩ = none →
          decode_texture_source texture parent fs idx =
            .error ("Texture " ++ pyNatRepr idx ++ " has invalid base64 payload.")))) ∧
    (strStarts s "data:" = false → s ≠ "" →
      (∀ bs, fs (if isAbsolutePath s then s else joinPath parent s) = some bs →
        decode_texture_source texture parent fs idx = .ok bs) ∧
      (fs (if isAbsolutePath s then s else joinPath parent s) = none →
        decode_texture_source texture parent fs idx =
          .error ("Texture " ++ pyNatRepr idx ++ " external source missing: " ++
            (if isAbsolutePath s then s else joinPath parent s)))) := by
  constructor
  · intro hstart
    have hne : s ≠ "" := by
      intro hemp
      rw [hemp] at hstart
      exact absurd hstart (by decide)
    refine ⟨?_, ?_⟩
    · intro hcomma
      simp only [decode_texture_source, hsource, if_pos hne, hstart, if_true, hcomma]
    · intro i hcomma
      constructor
      · intro bs hb64
        simp only [decode_texture_source, hsource, if_pos hne, hstart, if_true, hcomma, hb64]
      · intro hb64
        simp only [decode_texture_source, hsource, if_pos hne, hstart, if_true, hcomma, hb64]
  · intro hstart hne
    constructor
    · intro bs hfs
      simp only [decode_texture_source, hsource, if_pos hne, hstart,
        Bool.false_eq_true, if_false, hfs]
    · intro hfs
      simp only [decode_texture_source, hsource, if_pos hne, hstart,
        Bool.false_eq_true, if_false, hfs]

/-- Evaluation witness for C6: a well-formed inline payload decodes, a data
URI without a comma fails, an absent external file fails with the resolved
path. -/
theorem claim_C6_witness :
    decode_texture_source [("source", .jstr "data:;base64,QQ==")] "/src" noFs 3
      = .ok [65] ∧
    decode_texture_source [("source", .jstr "data:nope")] "/src" noFs 0
      = .error "Texture 0 has malformed data URL." ∧
    decode_texture_source [("source", .jstr "tex.png")] "/src" noFs 1
      = .error "Texture 1 external source missing: /src/tex.png" := by
  refine ⟨?_, ?_, ?_⟩
  · exact (((claim_C6 [("source", .jstr "data:;base64,QQ==")] "/src" noFs 3
        "data:;base64,QQ==" rfl).1 rfl).2 12 rfl).1 [65] rfl
  · exact ((claim_C6 [("source", .jstr "data:nope")] "/src" noFs 0
        "data:nope" rfl).1 rfl).1 rfl
  · exact ((claim_C6 [("source", .jstr "tex.png")] "/src" noFs 1
        "tex.png" rfl).2 rfl (by decide)).2 rfl

/-! ### Claim C8 -/

theorem collect_faces_all_skip (lookup : List Int) (resW resH : Int)
    (elem_name : String) (ff : List (String × JValue)) :
    ∀ names : List String, (∀ n ∈ names, isJObj (pyGet ff n) = false) →
      collect_faces lookup resW resH elem_name ff names = .ok [] := by
  intro names
  induction names with
  | nil => intro _; rfl
  | cons n rest ih =>
    intro hall
    have hn := hall n (List.mem_cons_self n rest)
    have hrest := ih (fun m hm => hall m (List.mem_cons_of_mem n hm))
    cases hv : pyGet ff n with
    | jobj o => rw [hv] at hn; simp [isJObj] at hn
    | jnull => simp only [collect_faces, hv]; exact hrest
    | jbool b => simp only [collect_faces, hv]; exact hrest
    | jint m => simp only [collect_faces, hv]; exact hrest
    | jfloat q => simp only [collect_faces, hv]; exact hrest
    | jstr s => simp only [collect_faces, hv]; exact hrest
    | jarr xs => simp only [collect_faces, hv]; exact hrest

theorem convert_elements_all_invisible (lookup : List Int) (resW resH : Int) :
    ∀ (elems : List JValue) (idx : Nat),
      (∀ e ∈ elems, ∃ f, e = .jobj f ∧
        isJFalse (pyGetD f "visibility" (.jbool true)) = true) →
      convert_elements lookup resW resH elems idx = .ok [] := by
  intro elems
  induction elems with
  | nil => intro idx _; rfl
  | cons e rest ih =>
    intro idx hall
    obtain ⟨f, rfl, hvis⟩ := hall e (List.mem_cons_self e rest)
    have h1 : convert_one_element lookup resW resH idx (.jobj f) = .ok none := by
      simp [convert_one_element, hvis]
    have hrest := ih (idx + 1) (fun m hm => hall m (List.mem_cons_of_mem _ hm))
    simp [convert_elements, h1, hrest]

/-- C8: an element marked not visible is skipped; an element whose six faces
are all absent or not objects is dropped silently; and when no converted
element remains (for example when every element is marked not-visible) the
run fails with the empty-result error rather than emitting a document. -/
theorem claim_C8 :
    (∀ (lookup : List Int) (resW resH : Int) (fields : List (String × JValue))
       (rest : List JValue) (idx : Nat),
       isJFalse (pyGetD fields "visibility" (.jbool true)) = true →
       convert_elements lookup resW resH (.jobj fields :: rest) idx =
         convert_elements lookup resW resH rest (idx + 1)) ∧
    (∀ (lookup : List Int) (resW resH : Int) (fields : List (String × JValue))
       (idx : Nat) (f3 t3 : ℚ × ℚ × ℚ) (r : Option Rotation)
       (ff : List (String × JValue)),
       isJFalse (pyGetD fields "visibility" (.jbool true)) = false →
       ensure_list3 (pyGet fields "from") "from"
         (pyStrOr (pyGet fields "name") ("element_" ++ pyNatRepr idx)) = .ok f3 →
       ensure_list3 (pyGet fields "to") "to"
         (pyStrOr (pyGet fields "name") ("element_" ++ pyNatRepr idx)) = .ok t3 →
       convert_rotation (pyGet fields "rotation") fields
         (pyStrOr (pyGet fields "name") ("element_" ++ pyNatRepr idx)) = .ok r →
       pyGet fields "faces" = .jobj ff →
       (∀ n ∈ VALID_FACES, isJObj (pyGet ff n) = false) →
       convert_one_element lookup resW resH idx (.jobj fields) = .ok none) ∧
    (∀ (bbmodel : List (String × JValue)) (plans : List TexturePlan)
       (resW resH : Int) (elems : List JValue),
       pyGet bbmodel "elements" = .jarr elems →
       (∀ e ∈ elems, ∃ f, e = .jobj f ∧
         isJFalse (pyGetD f "visibility" (.jbool true)) = true) →
       build_model_json bbmodel plans resW resH =
         .error "No visible textured elements were generated from the bbmodel.") := by
  refine ⟨?_, ?_, ?_⟩
  · intro lookup resW resH fields rest idx hvis
    have h1 : convert_one_element lookup resW resH idx (.jobj fields) = .ok none := by
      simp [convert_one_element, hvis]
    cases hrec : convert_elements lookup resW resH rest (idx + 1) with
    | error e => simp [convert_elements, h1, hrec]
    | ok rs => simp [convert_elements, h1, hrec]
  · intro lookup resW resH fields idx f3 t3 r ff hvis hfrom hto hrot hfaces hnone
    have hcol := collect_faces_all_skip lookup resW resH
      (pyStrOr (pyGet fields "name") ("element_" ++ pyNatRepr idx)) ff VALID_FACES hnone
    have hvis' : ¬ (isJFalse (pyGetD fields "visibility" (.jbool true)) = true) := by
      simp [hvis]
    simp only [convert_one_element, if_neg hvis', hfrom, hto, hrot, hfaces, hcol,
      List.isEmpty_nil, if_true]
  · intro bbmodel plans resW resH elems helems hall
    have hconv := convert_elements_all_invisible
      (plans.map fun q => (q.index : Int)) resW resH elems 0 hall
    simp only [build_model_json, helems, hconv, List.isEmpty_nil, if_true]

/-- Evaluation witness for C8: the all-invisible document fails with the
empty-result error; a visible but faceless element converts to a skip. -/
theorem claim_C8_witness :
    build_model_json invisibleDoc [samplePlan] 16 16 =
      .error "No visible textured elements were generated from the bbmodel." ∧
    convert_one_element [(0 : Int)] 16 16 0
      (.jobj [("from", .jarr [.jint 0, .jint 0, .jint 0]),
              ("to", .jarr [.jint 16, .jint 16, .jint 16]),
              ("faces", .jobj [])]) = .ok none := by
  constructor
  · refine claim_C8.2.2 invisibleDoc [samplePlan] 16 16
      [.jobj [("name", .jstr "hidden1"), ("visibility", .jbool false)],
       .jobj [("name", .jstr "hidden2"), ("visibility", .jbool false)]] rfl ?_
    intro e he
    rcases List.mem_cons.1 he with rfl | he2
    · exact ⟨_, rfl, rfl⟩
    · rcases List.mem_cons.1 he2 with rfl | he3
      · exact ⟨_, rfl, rfl⟩
      · cases he3
  · exact claim_C8.2.1 [(0 : Int)] 16 16
      [("from", .jarr [.jint 0, .jint 0, .jint 0]),
       ("to", .jarr [.jint 16, .jint 16, .jint 16]),
       ("faces", .jobj [])] 0 (0, 0, 0) (16, 16, 16) none [] rfl rfl rfl rfl rfl
      (by intro n hn; fin_cases hn <;> rfl)

/-! ### Substring facts for the collision listing -/

theorem listStarts_refl : ∀ l : List Char, listStarts l l = true := by
  intro l
  induction l with
  | nil => rfl
  | cons c rest ih => simp [listStarts, ih]

theorem listStarts_append_right {n xs : List Char} (ys : List Char)
    (h : listStarts n xs = true) : listStarts n (xs ++ ys) = true := by
  induction n generalizing xs with
  | nil => rfl
  | cons c ns ih =>
    cases xs with
    | nil => simp [listStarts] at h
    | cons x xs' =>
      simp only [listStarts, Bool.and_eq_true, decide_eq_true_eq] at h ⊢
      exact ⟨h.1, ih h.2⟩

theorem listSub_of_starts {n l : List Char} (h : listStarts n l = true) :
    listSub n l = true := by
  cases l with
  | nil =>
    cases n with
    | nil => rfl
    | cons c ns => simp [listStarts] at h
  | cons c rest => simp [listSub, h]

theorem listSub_append_right {n : List Char} (xs : List Char) {ys : List Char}
    (h : listSub n ys = true) : listSub n (xs ++ ys) = true := by
  induction xs with
  | nil => simpa using h
  | cons x xs' ih => simp [listSub, ih]

theorem listSub_append_left {n : List Char} {xs : List Char} (ys : List Char)
    (h : listSub n xs = true) : listSub n (xs ++ ys) = true := by
  induction xs with
  | nil =>
    simp only [listSub, List.isEmpty_iff] at h
    subst h
    cases ys with
    | nil => rfl
    | cons y ys' => simp [listSub, listStarts]
  | cons x xs' ih =>
    simp only [listSub, Bool.or_eq_true] at h ⊢
    rcases h with h | h
    · exact Or.inl (listStarts_append_right ys h)
    · exact Or.inr ((by simpa [listSub] using ih h : listSub n (xs' ++ ys) = true))

theorem strHas_append_left (a b needle : String) (h : strHas a needle = true) :
    strHas (a ++ b) needle = true := by
  unfold strHas at h ⊢
  rw [str_data_append]
  exact listSub_append_left b.data h

theorem strHas_append_right (a b needle : String) (h : strHas b needle = true) :
    strHas (a ++ b) needle = true := by
  unfold strHas at h ⊢
  rw [str_data_append]
  exact listSub_append_right a.data h

theorem strHas_self (s : String) : strHas s s = true :=
  listSub_of_starts (listStarts_refl s.data)

theorem strHas_joinNL {x : String} : ∀ l : List String, x ∈ l →
    strHas (joinNL l) x = true := by
  intro l
  induction l with
  | nil => intro h; cases h
  | cons s rest ih =>
    intro hmem
    rcases List.mem_cons.1 hmem with rfl | hmem'
    · cases rest with
      | nil => exact strHas_self x
      | cons r rest' =>
        show strHas (x ++ "\n" ++ joinNL (r :: rest')) x = true
        exact strHas_append_left _ _ _ (strHas_append_left _ _ _ (strHas_self x))
    · cases rest with
      | nil => cases hmem'
      | cons r rest' =>
        show strHas (s ++ "\n" ++ joinNL (r :: rest')) x = true
        exact strHas_append_right _ _ _ (ih hmem')

/-! ### Claim C7 (corrected: the listing is truncated past 10 entries) -/

/-- C7 counterexample: with eleven colliding paths the refusal message lists
only the first ten — the eleventh colliding path (`zzz_eleventh`, which the
all-true existence predicate marks as colliding) appears nowhere in the
message, so the message does not contain a complete listing of every
colliding path. -/
theorem claim_C7_counterexample :
    (ensure_writable elevenPaths false (fun _ => true)).isSome = true ∧
    "zzz_eleventh" ∈ elevenPaths ∧
    strHas ((ensure_writable elevenPaths false (fun _ => true)).getD "")
      "zzz_eleventh" = false := by
  refine ⟨rfl, by decide, ?_⟩
  rfl

/-- C7 (amended): unless the overwrite flag is set, every planned output
path (model JSON, one PNG per texture, one mcmeta per animated texture) is
checked before any write; if any exists the operation is refused with a
message listing the first ten colliding paths — the listing is complete
when at most ten paths collide — plus a count of the remainder, and no
write list is produced. -/
theorem claim_C7 :
    (∀ (paths : List String) (exists_fn : String → Bool),
      ensure_writable paths true exists_fn = none) ∧
    (∀ (paths : List String) (exists_fn : String → Bool),
      paths.filter exists_fn = [] → ensure_writable paths false exists_fn = none) ∧
    (∀ (paths : List String) (exists_fn : String → Bool),
      paths.filter exists_fn ≠ [] →
      ∃ msg, ensure_writable paths false exists_fn = some msg ∧
        (∀ p ∈ (paths.filter exists_fn).take 10, strHas msg ("- " ++ p) = true) ∧
        ((paths.filter exists_fn).length ≤ 10 →
          ∀ p ∈ paths.filter exists_fn, strHas msg ("- " ++ p) = true)) ∧
    (∀ (assets_root ns asset variant mn : String) (plans : List TexturePlan)
       (exists_fn : String → Bool),
      (planned_paths assets_root ns asset variant mn plans).filter exists_fn ≠ [] →
      ∃ msg, plan_writes assets_root ns asset variant mn plans false exists_fn
        = .error msg) := by
  have part3 : ∀ (paths : List String) (exists_fn : String → Bool),
      paths.filter exists_fn ≠ [] →
      ∃ msg, ensure_writable paths false exists_fn = some msg ∧
        (∀ p ∈ (paths.filter exists_fn).take 10, strHas msg ("- " ++ p) = true) ∧
        ((paths.filter exists_fn).length ≤ 10 →
          ∀ p ∈ paths.filter exists_fn, strHas msg ("- " ++ p) = true) := by
    intro paths exists_fn hne
    have hie : (paths.filter exists_fn).isEmpty = false := by
      rw [List.isEmpty_eq_false]
      exact hne
    refine ⟨"Destination files already exist. Use --force to overwrite.\n" ++
        joinNL (((paths.filter exists_fn).take 10).map (fun p => "- " ++ p)) ++
        (if (paths.filter exists_fn).length ≤ 10 then ""
         else "\n... and " ++ pyNatRepr ((paths.filter exists_fn).length - 10) ++ " more"),
      ?_, ?_, ?_⟩
    · simp [ensure_writable, hie]
    · intro p hp
      have hline : ("- " ++ p) ∈ ((paths.filter exists_fn).take 10).map
          (fun q => "- " ++ q) := List.mem_map_of_mem _ hp
      have hprev := strHas_joinNL _ hline
      exact strHas_append_left _ _ _ (strHas_append_right _ _ _ hprev)
    · intro hlen p hp
      have hall : (paths.filter exists_fn).take 10 = paths.filter exists_fn :=
        List.take_of_length_le hlen
      have hline : ("- " ++ p) ∈ ((paths.filter exists_fn).take 10).map
          (fun q => "- " ++ q) := by
        rw [hall]
        exact List.mem_map_of_mem _ hp
      have hprev := strHas_joinNL _ hline
      exact strHas_append_left _ _ _ (strHas_append_right _ _ _ hprev)
  refine ⟨?_, ?_, part3, ?_⟩
  · intro paths exists_fn
    rfl
  · intro paths exists_fn hfil
    simp [ensure_writable, hfil]
  · intro assets_root ns asset variant mn plans exists_fn hne
    obtain ⟨msg, hmsg, -, -⟩ :=
      part3 (planned_paths assets_root ns asset variant mn plans) exists_fn hne
    exact ⟨msg, by simp [plan_writes, hmsg]⟩

/-- Evaluation witness for C7: with two colliding paths the refusal message
lists both. -/
theorem claim_C7_witness :
    (ensure_writable ["a", "b"] false (fun _ => true)).isSome = true ∧
    strHas ((ensure_writable ["a", "b"] false (fun _ => true)).getD "") "- a" = true ∧
    strHas ((ensure_writable ["a", "b"] false (fun _ => true)).getD "") "- b" = true := by
  obtain ⟨msg, hmsg, -, hall⟩ := claim_C7.2.2.1 ["a", "b"] (fun _ => true) (by decide)
  rw [hmsg]
  refine ⟨rfl, ?_, ?_⟩
  · simpa using hall (by decide) "a" (by decide)
  · simpa using hall (by decide) "b" (by decide)

/-! ### Claim C9 (corrected: the boolean is formatted as `True`/`False`) -/

/-- C9 counterexample: a face whose texture ref is the JSON boolean `true`
is accepted and resolves to texture index 1, but the emitted face carries
texture `"#True"` — Python's string form of the boolean — not `"#1"` as the
claim states. -/
theorem claim_C9_counterexample :
    build_texture_plans boolDoc "/src" noFs "ns" "asset" "default" "model" false
      = .ok boolPlans ∧
    ((build_model_json boolDoc boolPlans 16 16).toOption.map
      (fun out => out.elements.map (fun te => te.faces.map (fun f => (f.1, f.2.texture)))))
      = some [[("north", "#True")]] ∧
    "#True" ≠ "#1" := by
  refine ⟨rfl, rfl, by decide⟩

/-- C9 (amended): a face texture ref that is the JSON boolean `true`
(`false`) is accepted — Python treats `bool` as an `int` — and is looked up
as index 1 (0); when that index is resolved the face is emitted with
texture `"#True"` (`"#False"`), the Python string form of the boolean, and
otherwise conversion fails with the missing-texture-index error formatting
the boolean the same way. -/
theorem claim_C9 (b : Bool) (elem_name face_name : String) :
    resolve_texture_index (.jbool b) elem_name face_name = .ok (.ofBool b) ∧
    (TexRef.ofBool b).intVal = (if b then 1 else 0) ∧
    (∀ (lookup : List Int) (resW resH : Int) (raw_face : List (String × JValue))
       (uv4 : ℚ × ℚ × ℚ × ℚ),
       pyGet raw_face "texture" = .jbool b →
       ensure_list4 (pyGet raw_face "uv") "face uv" elem_name = .ok uv4 →
       (((if b then (1 : Int) else 0) ∈ lookup →
         ∃ tf, convert_face lookup resW resH elem_name face_name raw_face = .ok tf ∧
           tf.texture = (if b then "#True" else "#False")) ∧
        ((if b then (1 : Int) else 0) ∉ lookup →
          convert_face lookup resW resH elem_name face_name raw_face =
            .error ("Element '" ++ elem_name ++ "' face '" ++ face_name ++
              "' references missing texture index " ++
              (if b then "True" else "False") ++ ".")))) := by
  refine ⟨rfl, rfl, ?_⟩
  intro lookup resW resH raw_face uv4 htex huv
  have hres : resolve_texture_index (pyGet raw_face "texture") elem_name face_name
      = .ok (.ofBool b) := by rw [htex]; rfl
  have hval : (TexRef.ofBool b).intVal = (if b then (1 : Int) else 0) := rfl
  constructor
  · intro hmem
    rw [← hval] at hmem
    cases hcf : convert_face lookup resW resH elem_name face_name raw_face with
    | error e =>
      simp only [convert_face, hres, if_pos hmem, huv] at hcf
      exact Except.noConfusion hcf
    | ok tf =>
      refine ⟨tf, rfl, ?_⟩
      simp only [convert_face, hres, if_pos hmem, huv] at hcf
      cases hcf
      show "#" ++ (TexRef.ofBool b).strForm = _
      cases b <;> rfl
  · intro hnmem
    rw [← hval] at hnmem
    simp only [convert_face, hres, if_neg hnmem]
    cases b <;> rfl

/-- Evaluation witness for C9: with texture indices 0 and 1 declared, the
`true`-referencing face converts and carries texture `"#True"`. -/
theorem claim_C9_witness :
    resolve_texture_index (.jbool true) "cube" "north" = .ok (.ofBool true) ∧
    ((convert_face [0, 1] 16 16 "cube" "north"
        [("uv", .jarr [.jint 0, .jint 0, .jint 16, .jint 16]),
         ("texture", .jbool true)]).toOption.map TargetFace.texture)
      = some "#True" := by
  have h := claim_C9 true "cube" "north"
  obtain ⟨tf, htf, htex⟩ := (h.2.2 [0, 1] 16 16
    [("uv", .jarr [.jint 0, .jint 0, .jint 16, .jint 16]),
     ("texture", .jbool true)]
    ((0 : ℚ), (0 : ℚ), (16 : ℚ), (16 : ℚ)) rfl rfl).1 (by decide)
  refine ⟨h.1, ?_⟩
  rw [htf]
  simp [Except.toOption, htex]

/-! ### Claim C10 -/

/-- C10: the loose numeric coercion never fails — it is a total function
into `Int`, with a boolean, a non-positive number, a non-integer float and
an unparsable string all silently yielding the call site's default: `16`
for the resolution dimensions, `0` for the texture dimensions and `1` for
`frame_time`. -/
theorem claim_C10 :
    (∀ (b : Bool) (d : Int), read_positive_int (.jbool b) d = d) ∧
    (∀ (n d : Int), n ≤ 0 → read_positive_int (.jint n) d = d) ∧
    (∀ (q : ℚ) (d : Int), q.den ≠ 1 → read_positive_int (.jfloat q) d = d) ∧
    (∀ (s : String) (d : Int), pyIntOfString s = none →
      read_positive_int (.jstr s) d = d) ∧
    (∀ d : Int, read_positive_int .jnull d = d) ∧
    (∀ (bbmodel : List (String × JValue)) (r : List (String × JValue)),
      pyGetD bbmodel "resolution" (.jobj []) = .jobj r →
      model_resolution_of bbmodel =
        some (read_positive_int (pyGet r "width") 16,
              read_positive_int (pyGet r "height") 16)) ∧
    (∀ (texture : List (String × JValue)) (idx : Nat)
       (ns asset variant stem : String) (data : List Nat),
      (make_texture_plan texture idx ns asset variant stem data).mcmeta_json =
        (if isAnimatedTexture (read_positive_int (pyGet texture "width") 0)
              (read_positive_int (pyGet texture "height") 0)
              (read_positive_int (pyGet texture "uv_width") 0)
              (read_positive_int (pyGet texture "uv_height") 0) then
           some { interpolate := pyTruthy (pyGet texture "frame_interpolate"),
                  frametime := read_positive_int (pyGet texture "frame_time") 1 }
         else none)) := by
  refine ⟨fun b d => rfl, ?_, ?_, ?_, fun d => rfl, ?_, fun t i ns a v s bs => rfl⟩
  · intro n d h
    simp [read_positive_int, not_lt.2 h]
  · intro q d h
    simp [read_positive_int, h]
  · intro s d h
    simp [read_positive_int, h]
  · intro bbmodel r hr
    simp [model_resolution_of, hr]

/-- Evaluation witness for C10: each flavour of defaulting coercion, and the
resolution call site with an unparsable width string. -/
theorem claim_C10_witness :
    read_positive_int (.jbool true) 16 = 16 ∧
    read_positive_int (.jint (-3)) 16 = 16 ∧
    read_positive_int (.jfloat ((7 : ℚ) / 2)) 1 = 1 ∧
    read_positive_int (.jstr "abc") 0 = 0 ∧
    model_resolution_of [("resolution", .jobj [("width", .jstr "abc")])]
      = some (16, 16) := by
  refine ⟨claim_C10.1 true 16, claim_C10.2.1 (-3) 16 (by norm_num),
    claim_C10.2.2.1 ((7 : ℚ) / 2) 1 (by norm_num),
    claim_C10.2.2.2.1 "abc" 0 rfl, ?_⟩
  rw [claim_C10.2.2.2.2.2.1 [("resolution", .jobj [("width", .jstr "abc")])]
    [("width", .jstr "abc")] rfl]
  rfl
